import Mathlib

/-
Verification development for the PCA9685 PWM driver
(src/external/hf-pca9685-driver).

The C++ class Pca9685Pwm is embedded shallowly:
- machine integers become Nat with explicit `% 256` masking where the C++
  masks bytes;
- `float` duty cycles and the prescale computation are modelled with exact
  rationals; on the caller-validated input ranges the float32 computation
  agrees with exact rational arithmetic, so the model is faithful there;
- the I2C transport (`BaseI2c`) is an external collaborator; it is modelled
  as an oracle `Bhv` giving, for each transaction index, whether the
  transaction succeeds and what byte a read returns.  The driver state
  carries a transaction counter and the trace of issued transactions.
-/

namespace Pca9685

/-- Error codes of the `HfPwmErr` result enumeration used by the driver. -/
inductive HfPwmErr where
  | PWM_SUCCESS
  | PWM_NOT_INITIALIZED
  | PWM_INVALID_CHANNEL
  | PWM_INVALID_FREQUENCY
  | PWM_INVALID_DUTY_CYCLE
  | PWM_INVALID_ARGUMENT
  | PWM_HARDWARE_ERROR
  | PWM_NOT_SUPPORTED
  deriving DecidableEq, Repr

/-- One I2C transaction as issued by the driver to the transport:
a raw write (address plus payload bytes), a write-then-read, or the
transport's own Initialize and Deinitialize calls. -/
inductive Tx where
  | write (addr : Nat) (data : List Nat)
  | writeRead (addr : Nat) (out : List Nat)
  | busInit
  | busDeinit
  deriving DecidableEq, Repr

/-- Transport behaviour oracle: `ok n` says whether the n-th transaction
issued by the driver succeeds, and `readVal n` is the byte delivered when
the n-th transaction is a read. -/
structure Bhv where
  ok : Nat → Bool
  readVal : Nat → Nat

/-- Per-channel cached state, mirroring `Pca9685Pwm::ChannelState`
(Pca9685Pwm.h lines 249 to 254) with its member initializers. -/
structure ChannelState where
  is_active : Bool := false
  duty_cycle : ℚ := 0
  on_time : Nat := 0
  off_time : Nat := 0
  deriving DecidableEq, Repr

/-- Driver instance fields of class `Pca9685Pwm` (Pca9685Pwm.h lines 256
to 262).  `i2c_present` models whether the `unique_ptr<BaseI2c>` is
non-null; the channel array is a total map consulted only at indices
below 16. -/
structure Pwm where
  i2c_present : Bool
  i2c_address : Nat
  output_enable_pin : Int
  is_initialized : Bool
  current_frequency : Nat
  prescale_value : Nat
  channels : Nat → ChannelState

/-- Whole-system state: driver fields, the count of transactions issued so
far (indexing the oracle), and the trace of issued transactions. -/
structure World where
  drv : Pwm
  txCount : Nat
  trace : List Tx

/-- Issue one transaction to the transport: the oracle decides success,
the transaction is appended to the trace either way. -/
def issueTx (bhv : Bhv) (w : World) (t : Tx) : Bool × World :=
  (bhv.ok w.txCount, { w with txCount := w.txCount + 1, trace := w.trace ++ [t] })

/-- Constants from the header (Pca9685Pwm.h lines 69 to 99). -/
def MAX_CHANNELS : Nat := 16

/-- Maximum 12-bit PWM counter value. -/
def MAX_PWM_VALUE : Nat := 4095

/-- Minimum supported output frequency in Hz. -/
def MIN_FREQUENCY : Nat := 24

/-- Maximum supported output frequency in Hz. -/
def MAX_FREQUENCY : Nat := 1526

/-- Internal oscillator frequency in Hz. -/
def INTERNAL_OSC_FREQ : Nat := 25000000

/-- Embeds `Pca9685Pwm::IsValidChannel` (Pca9685Pwm.cpp lines 607 to 609). -/
def IsValidChannel (channel_id : Nat) : Bool :=
  channel_id < MAX_CHANNELS

/-- Embeds `Pca9685Pwm::CalculatePrescale` (Pca9685Pwm.cpp lines 527 to
534).  The float32 expression `25000000.0f / (4096.0f * f) - 1.0f` rounded
half away from zero agrees with exact rational arithmetic rounded half up
for every frequency the caller admits (24 to 1526 Hz, where the value is
positive), so the computation is modelled over ℚ. -/
def CalculatePrescale (frequency_hz : Nat) : Nat :=
  let prescale_q : ℚ := (INTERNAL_OSC_FREQ : ℚ) / (4096 * (frequency_hz : ℚ)) - 1
  let prescale : Nat := (round prescale_q).toNat
  max 3 (min 255 prescale)

/-- Embeds `Pca9685Pwm::DutyCycleToTiming` (Pca9685Pwm.cpp lines 571 to
582).  The C++ `static_cast<uint16_t>` of the positive float product
truncates toward zero, i.e. takes the floor. -/
def DutyCycleToTiming (duty_cycle : ℚ) : Nat × Nat :=
  if duty_cycle ≤ 0 then (0, MAX_PWM_VALUE)
  else if 1 ≤ duty_cycle then (MAX_PWM_VALUE, 0)
  else (0, (⌊duty_cycle * (MAX_PWM_VALUE : ℚ)⌋).toNat)

/-- Error-propagation combinator mirroring the C++ pattern
`result = step(); if (result != PWM_SUCCESS) return result;` used by every
multi-step operation of the driver. -/
def andThen (r : HfPwmErr × World) (k : World → HfPwmErr × World) : HfPwmErr × World :=
  if r.1 = .PWM_SUCCESS then k r.2 else r

/-- Embeds `Pca9685Pwm::WriteRegister` (Pca9685Pwm.cpp lines 499 to 511):
a two-byte transaction (register, value) to the device address, hardware
error when the transport is missing or the transaction fails. -/
def WriteRegister (bhv : Bhv) (w : World) (reg value : Nat) : HfPwmErr × World :=
  if w.drv.i2c_present = false then (.PWM_HARDWARE_ERROR, w)
  else
    let r := issueTx bhv w (.write w.drv.i2c_address [reg, value])
    if r.1 then (.PWM_SUCCESS, r.2) else (.PWM_HARDWARE_ERROR, r.2)

/-- Embeds `Pca9685Pwm::ReadRegister` (Pca9685Pwm.cpp lines 513 to 525):
write-then-read of one byte.  On failure the C++ out-parameter stays
uninitialized and is never consulted by callers; the model returns 0
there. -/
def ReadRegister (bhv : Bhv) (w : World) (reg : Nat) : HfPwmErr × Nat × World :=
  if w.drv.i2c_present = false then (.PWM_HARDWARE_ERROR, 0, w)
  else
    let r := issueTx bhv w (.writeRead w.drv.i2c_address [reg])
    if r.1 then (.PWM_SUCCESS, bhv.readVal w.txCount % 256, r.2)
    else (.PWM_HARDWARE_ERROR, 0, r.2)

/-- Embeds `Pca9685Pwm::SetChannelTiming` (Pca9685Pwm.cpp lines 536 to
569): four register writes at base `LED0_ON_L + 4 * channel`, aborting at
the first failure.  `x % 256` renders the C++ byte masks `x & 0xFF` and
`(x >> 8) & 0xFF`. -/
def SetChannelTiming (bhv : Bhv) (w : World) (channel_id on_time off_time : Nat) :
    HfPwmErr × World :=
  if IsValidChannel channel_id = false then (.PWM_INVALID_CHANNEL, w)
  else
    let base_reg := 6 + channel_id * 4
    andThen (WriteRegister bhv w base_reg (on_time % 256)) fun w =>
    andThen (WriteRegister bhv w (base_reg + 1) (on_time / 256 % 256)) fun w =>
    andThen (WriteRegister bhv w (base_reg + 2) (off_time % 256)) fun w =>
    WriteRegister bhv w (base_reg + 3) (off_time / 256 % 256)

/-- Embeds `Pca9685Pwm::Reset` (Pca9685Pwm.cpp lines 584 to 605): the
software-reset payload `{0x00, 0x06}` sent to the general-call address 0,
then every channel record reset to its default state. -/
def Reset (bhv : Bhv) (w : World) : HfPwmErr × World :=
  if w.drv.i2c_present = false then (.PWM_HARDWARE_ERROR, w)
  else
    let r := issueTx bhv w (.write 0 [0, 6])
    if r.1 = false then (.PWM_HARDWARE_ERROR, r.2)
    else
      let w := r.2
      (.PWM_SUCCESS,
        { w with drv := { w.drv with
            channels := fun i => if i < MAX_CHANNELS then {} else w.drv.channels i } })

/-- Embeds `Pca9685Pwm::Sleep` (Pca9685Pwm.cpp lines 453 to 470):
read MODE1, set the SLEEP bit (0x10), write it back. -/
def Sleep (bhv : Bhv) (w : World) : HfPwmErr × World :=
  if w.drv.is_initialized = false then (.PWM_NOT_INITIALIZED, w)
  else
    match ReadRegister bhv w 0 with
    | (.PWM_SUCCESS, mode1, w) => WriteRegister bhv w 0 (mode1 ||| 16)
    | (e, _, w) => (e, w)

/-- Embeds `Pca9685Pwm::Wakeup` (Pca9685Pwm.cpp lines 472 to 496):
read MODE1, clear the SLEEP bit, write it back.  `mode1 &&& 239` renders
the C++ byte operation `mode1 & ~0x10` on a value below 256. -/
def Wakeup (bhv : Bhv) (w : World) : HfPwmErr × World :=
  if w.drv.is_initialized = false then (.PWM_NOT_INITIALIZED, w)
  else
    match ReadRegister bhv w 0 with
    | (.PWM_SUCCESS, mode1, w) => WriteRegister bhv w 0 (mode1 &&& 239)
    | (e, _, w) => (e, w)

/-- Embeds `Pca9685Pwm::SetFrequency` (Pca9685Pwm.cpp lines 166 to 217):
validation, then read MODE1, write MODE1 with SLEEP set, write the
prescale register 0xFE, write MODE1 with SLEEP cleared, and on success
record frequency and prescale in the driver state. -/
def SetFrequency (bhv : Bhv) (w : World) (channel_id frequency_hz : Nat) :
    HfPwmErr × World :=
  if w.drv.is_initialized = false then (.PWM_NOT_INITIALIZED, w)
  else if IsValidChannel channel_id = false then (.PWM_INVALID_CHANNEL, w)
  else if frequency_hz < MIN_FREQUENCY ∨ MAX_FREQUENCY < frequency_hz then
    (.PWM_INVALID_FREQUENCY, w)
  else
    let prescale := CalculatePrescale frequency_hz
    match ReadRegister bhv w 0 with
    | (.PWM_SUCCESS, mode1, w) =>
      let mode1a := mode1 ||| 16
      andThen (WriteRegister bhv w 0 mode1a) fun w =>
      andThen (WriteRegister bhv w 254 prescale) fun w =>
      let mode1b := mode1a &&& 239
      andThen (WriteRegister bhv w 0 mode1b) fun w =>
      (.PWM_SUCCESS, { w with drv := { w.drv with
          current_frequency := frequency_hz, prescale_value := prescale } })
    | (e, _, w) => (e, w)

/-- Embeds `Pca9685Pwm::SetDutyCycle` (Pca9685Pwm.cpp lines 140 to 164):
validation, timing mapping, four timing writes, and on success the channel
record caches duty cycle and timing. -/
def SetDutyCycle (bhv : Bhv) (w : World) (channel_id : Nat) (duty_cycle : ℚ) :
    HfPwmErr × World :=
  if w.drv.is_initialized = false then (.PWM_NOT_INITIALIZED, w)
  else if IsValidChannel channel_id = false then (.PWM_INVALID_CHANNEL, w)
  else if duty_cycle < 0 ∨ 1 < duty_cycle then (.PWM_INVALID_DUTY_CYCLE, w)
  else
    let t := DutyCycleToTiming duty_cycle
    match SetChannelTiming bhv w channel_id t.1 t.2 with
    | (.PWM_SUCCESS, w) =>
      (.PWM_SUCCESS, { w with drv := { w.drv with
          channels := Function.update w.drv.channels channel_id
            { w.drv.channels channel_id with
                duty_cycle := duty_cycle, on_time := t.1, off_time := t.2 } } })
    | (e, w) => (e, w)

/-- Embeds `Pca9685Pwm::Start` (Pca9685Pwm.cpp lines 219 to 237):
re-applies the channel's cached timing and marks it active on success. -/
def Start (bhv : Bhv) (w : World) (channel_id : Nat) : HfPwmErr × World :=
  if w.drv.is_initialized = false then (.PWM_NOT_INITIALIZED, w)
  else if IsValidChannel channel_id = false then (.PWM_INVALID_CHANNEL, w)
  else
    match SetChannelTiming bhv w channel_id
        (w.drv.channels channel_id).on_time (w.drv.channels channel_id).off_time with
    | (.PWM_SUCCESS, w) =>
      (.PWM_SUCCESS, { w with drv := { w.drv with
          channels := Function.update w.drv.channels channel_id
            { w.drv.channels channel_id with is_active := true } } })
    | (e, w) => (e, w)

/-- Embeds `Pca9685Pwm::Stop` (Pca9685Pwm.cpp lines 239 to 255): writes
the permanently-off timing (0, 4095) to the hardware and marks the channel
inactive, leaving the cached duty cycle and timing untouched. -/
def Stop (bhv : Bhv) (w : World) (channel_id : Nat) : HfPwmErr × World :=
  if w.drv.is_initialized = false then (.PWM_NOT_INITIALIZED, w)
  else if IsValidChannel channel_id = false then (.PWM_INVALID_CHANNEL, w)
  else
    match SetChannelTiming bhv w channel_id 0 MAX_PWM_VALUE with
    | (.PWM_SUCCESS, w) =>
      (.PWM_SUCCESS, { w with drv := { w.drv with
          channels := Function.update w.drv.channels channel_id
            { w.drv.channels channel_id with is_active := false } } })
    | (e, w) => (e, w)

/-- Embeds `Pca9685Pwm::GetDutyCycle` (Pca9685Pwm.cpp lines 257 to 268):
pure read of the cached duty cycle; the out-parameter is modelled as an
optional value, `none` when the call errors and leaves it untouched. -/
def GetDutyCycle (w : World) (channel_id : Nat) : HfPwmErr × Option ℚ :=
  if w.drv.is_initialized = false then (.PWM_NOT_INITIALIZED, none)
  else if IsValidChannel channel_id = false then (.PWM_INVALID_CHANNEL, none)
  else (.PWM_SUCCESS, some (w.drv.channels channel_id).duty_cycle)

/-- Embeds `Pca9685Pwm::GetFrequency` (Pca9685Pwm.cpp lines 270 to 281). -/
def GetFrequency (w : World) (channel_id : Nat) : HfPwmErr × Option Nat :=
  if w.drv.is_initialized = false then (.PWM_NOT_INITIALIZED, none)
  else if IsValidChannel channel_id = false then (.PWM_INVALID_CHANNEL, none)
  else (.PWM_SUCCESS, some w.drv.current_frequency)

/-- Embeds `Pca9685Pwm::IsChannelActive` (Pca9685Pwm.cpp lines 283 to
289).  It has the transport in scope like every member function but never
touches it; the returned world is the input world unchanged. -/
def IsChannelActive (_bhv : Bhv) (w : World) (channel_id : Nat) : Bool × World :=
  if w.drv.is_initialized = false ∨ IsValidChannel channel_id = false then (false, w)
  else ((w.drv.channels channel_id).is_active, w)

/-- Channel configuration input of `ConfigureChannel`, restricted to the
fields the implementation reads (`frequency_hz`, `initial_duty_cycle`). -/
structure PwmChannelConfig where
  frequency_hz : Nat
  initial_duty_cycle : ℚ

/-- Embeds `Pca9685Pwm::ConfigureChannel` (Pca9685Pwm.cpp lines 106 to
138): validation in order (initialized, channel, frequency, duty cycle),
then SetFrequency followed by SetDutyCycle, aborting on first error. -/
def ConfigureChannel (bhv : Bhv) (w : World) (channel_id : Nat)
    (config : PwmChannelConfig) : HfPwmErr × World :=
  if w.drv.is_initialized = false then (.PWM_NOT_INITIALIZED, w)
  else if IsValidChannel channel_id = false then (.PWM_INVALID_CHANNEL, w)
  else if config.frequency_hz < MIN_FREQUENCY ∨ MAX_FREQUENCY < config.frequency_hz then
    (.PWM_INVALID_FREQUENCY, w)
  else if config.initial_duty_cycle < 0 ∨ 1 < config.initial_duty_cycle then
    (.PWM_INVALID_DUTY_CYCLE, w)
  else
    andThen (SetFrequency bhv w channel_id config.frequency_hz) fun w =>
    SetDutyCycle bhv w channel_id config.initial_duty_cycle

/-- Embeds `Pca9685Pwm::Initialize` (Pca9685Pwm.cpp lines 28 to 76):
early success when already initialized, invalid-argument on a missing
transport, then transport init, broadcast reset, default frequency,
MODE2 output-driver write (OUTDRV = 0x04), wake-up, and only then the
initialized flag is set. -/
def Initialize (bhv : Bhv) (w : World) : HfPwmErr × World :=
  if w.drv.is_initialized then (.PWM_SUCCESS, w)
  else if w.drv.i2c_present = false then (.PWM_INVALID_ARGUMENT, w)
  else
    let r := issueTx bhv w .busInit
    if r.1 = false then (.PWM_HARDWARE_ERROR, r.2)
    else
      andThen (Reset bhv r.2) fun w =>
      andThen (SetFrequency bhv w 0 w.drv.current_frequency) fun w =>
      andThen (WriteRegister bhv w 1 4) fun w =>
      andThen (Wakeup bhv w) fun w =>
      (.PWM_SUCCESS, { w with drv := { w.drv with is_initialized := true } })

/-- Embeds `Pca9685Pwm::Deinitialize` (Pca9685Pwm.cpp lines 78 to 104):
stops all 16 channels, sleeps, releases the transport — discarding every
result — then clears the initialized flag and returns success. -/
def Deinitialize (bhv : Bhv) (w : World) : HfPwmErr × World :=
  if w.drv.is_initialized = false then (.PWM_NOT_INITIALIZED, w)
  else
    let w := (List.range MAX_CHANNELS).foldl (fun w i => (Stop bhv w i).2) w
    let w := (Sleep bhv w).2
    let w := if w.drv.i2c_present then (issueTx bhv w .busDeinit).2 else w
    (.PWM_SUCCESS, { w with drv := { w.drv with is_initialized := false } })

/-- Loop body of `Pca9685Pwm::StartMultiple` (Pca9685Pwm.cpp lines 333 to
338): apply `Start` to each listed channel, abort at the first failure. -/
def startList (bhv : Bhv) : World → List Nat → HfPwmErr × World
  | w, [] => (.PWM_SUCCESS, w)
  | w, c :: cs =>
    match Start bhv w c with
    | (.PWM_SUCCESS, w1) => startList bhv w1 cs
    | (e, w1) => (e, w1)

/-- Loop body of `Pca9685Pwm::StopMultiple` (Pca9685Pwm.cpp lines 348 to
353). -/
def stopList (bhv : Bhv) : World → List Nat → HfPwmErr × World
  | w, [] => (.PWM_SUCCESS, w)
  | w, c :: cs =>
    match Stop bhv w c with
    | (.PWM_SUCCESS, w1) => stopList bhv w1 cs
    | (e, w1) => (e, w1)

/-- Loop body of `Pca9685Pwm::SetDutyCycleMultiple` (Pca9685Pwm.cpp lines
363 to 368), over channel/duty pairs. -/
def setDutyList (bhv : Bhv) : World → List (Nat × ℚ) → HfPwmErr × World
  | w, [] => (.PWM_SUCCESS, w)
  | w, p :: ps =>
    match SetDutyCycle bhv w p.1 p.2 with
    | (.PWM_SUCCESS, w1) => setDutyList bhv w1 ps
    | (e, w1) => (e, w1)

/-- Embeds `Pca9685Pwm::StartMultiple` (Pca9685Pwm.cpp lines 328 to 341):
a null pointer is `none`, a non-null array of `num_channels` entries is
`some` of the list of those entries. -/
def StartMultiple (bhv : Bhv) (w : World) (channel_ids : Option (List Nat)) :
    HfPwmErr × World :=
  match channel_ids with
  | none => (.PWM_INVALID_ARGUMENT, w)
  | some ids => if ids.length = 0 then (.PWM_INVALID_ARGUMENT, w) else startList bhv w ids

/-- Embeds `Pca9685Pwm::StopMultiple` (Pca9685Pwm.cpp lines 343 to 356). -/
def StopMultiple (bhv : Bhv) (w : World) (channel_ids : Option (List Nat)) :
    HfPwmErr × World :=
  match channel_ids with
  | none => (.PWM_INVALID_ARGUMENT, w)
  | some ids => if ids.length = 0 then (.PWM_INVALID_ARGUMENT, w) else stopList bhv w ids

/-- Embeds `Pca9685Pwm::SetDutyCycleMultiple` (Pca9685Pwm.cpp lines 358 to
371); the two arrays are read at indices 0 to `num_channels - 1`, rendered
by zipping lists of that common length. -/
def SetDutyCycleMultiple (bhv : Bhv) (w : World) (channel_ids : Option (List Nat))
    (duty_cycles : Option (List ℚ)) : HfPwmErr × World :=
  match channel_ids, duty_cycles with
  | none, _ => (.PWM_INVALID_ARGUMENT, w)
  | some _, none => (.PWM_INVALID_ARGUMENT, w)
  | some ids, some ds =>
    if ids.length = 0 then (.PWM_INVALID_ARGUMENT, w)
    else setDutyList bhv w (ids.zip ds)

/-- Embeds `Pca9685Pwm::ConfigureExternalClock` (Pca9685Pwm.cpp lines 386
to 403): read MODE1, set the EXTCLK bit (0x40), write back. -/
def ConfigureExternalClock (bhv : Bhv) (w : World) : HfPwmErr × World :=
  if w.drv.is_initialized = false then (.PWM_NOT_INITIALIZED, w)
  else
    match ReadRegister bhv w 0 with
    | (.PWM_SUCCESS, mode1, w) => WriteRegister bhv w 0 (mode1 ||| 64)
    | (e, _, w) => (e, w)

/-- Embeds `Pca9685Pwm::SetOutputDriver` (Pca9685Pwm.cpp lines 405 to
427): read MODE2, set or clear the OUTDRV bit (0x04), write back. -/
def SetOutputDriver (bhv : Bhv) (w : World) (totem_pole : Bool) : HfPwmErr × World :=
  if w.drv.is_initialized = false then (.PWM_NOT_INITIALIZED, w)
  else
    match ReadRegister bhv w 1 with
    | (.PWM_SUCCESS, mode2, w) =>
      WriteRegister bhv w 1 (if totem_pole then mode2 ||| 4 else mode2 &&& 251)
    | (e, _, w) => (e, w)

/-- Embeds `Pca9685Pwm::SetOutputInvert` (Pca9685Pwm.cpp lines 429 to
451): read MODE2, set or clear the INVRT bit (0x10), write back. -/
def SetOutputInvert (bhv : Bhv) (w : World) (inverted : Bool) : HfPwmErr × World :=
  if w.drv.is_initialized = false then (.PWM_NOT_INITIALIZED, w)
  else
    match ReadRegister bhv w 1 with
    | (.PWM_SUCCESS, mode2, w) =>
      WriteRegister bhv w 1 (if inverted then mode2 ||| 16 else mode2 &&& 239)
    | (e, _, w) => (e, w)

/-- Embeds `Pca9685Pwm::SetOutputEnable` (Pca9685Pwm.cpp lines 374 to
384): GPIO only, no I2C transaction and no driver-state change. -/
def SetOutputEnable (w : World) (_enabled : Bool) : HfPwmErr × World :=
  if w.drv.output_enable_pin < 0 then (.PWM_NOT_SUPPORTED, w) else (.PWM_SUCCESS, w)

/-- Driver state as built by the constructor (Pca9685Pwm.cpp lines 11 to
20): not initialized, default frequency 1000 Hz, prescale 0, all channel
records default. -/
def mkDriver (i2c_present : Bool) (i2c_address : Nat) (output_enable_pin : Int) : Pwm :=
  { i2c_present := i2c_present
    i2c_address := i2c_address
    output_enable_pin := output_enable_pin
    is_initialized := false
    current_frequency := 1000
    prescale_value := 0
    channels := fun _ => {} }

/-- A freshly constructed driver with a present transport at the default
address 0x40, no transactions issued yet. -/
def freshWorld : World :=
  { drv := mkDriver true 64 (-1), txCount := 0, trace := [] }

/-- The fresh world with the initialized flag forced on, standing for an
initialized driver instance. -/
def initWorld : World :=
  { freshWorld with drv := { freshWorld.drv with is_initialized := true } }

/-- Transport on which every transaction succeeds and every read returns
0. -/
def bhvOk : Bhv := { ok := fun _ => true, readVal := fun _ => 0 }

/-- Transport on which every transaction fails. -/
def bhvFail : Bhv := { ok := fun _ => false, readVal := fun _ => 0 }

/-- Transport failing exactly the third transaction (index 2), which in a
lone SetFrequency call is the prescale write. -/
def bhvThirdFails : Bhv := { ok := fun n => decide (n ≠ 2), readVal := fun _ => 0 }

/-- The twelve-bit bound on cached channel timing values (invariant I1 of
the specification), as a predicate on whole driver states. -/
def ChanInv (w : World) : Prop :=
  ∀ i : Nat, (w.drv.channels i).on_time ≤ 4095 ∧ (w.drv.channels i).off_time ≤ 4095

/-- The public operations of the driver, for quantifying over arbitrary
call sequences. -/
inductive Op where
  | opInit
  | opDeinit
  | opConfigure (channel_id : Nat) (config : PwmChannelConfig)
  | opSetDuty (channel_id : Nat) (duty_cycle : ℚ)
  | opSetFreq (channel_id frequency_hz : Nat)
  | opStart (channel_id : Nat)
  | opStop (channel_id : Nat)
  | opStartMany (channel_ids : Option (List Nat))
  | opStopMany (channel_ids : Option (List Nat))
  | opSetDutyMany (channel_ids : Option (List Nat)) (duty_cycles : Option (List ℚ))
  | opSleep
  | opWakeup
  | opExtClock
  | opOutputDriver (totem_pole : Bool)
  | opOutputInvert (inverted : Bool)
  | opOutputEnable (enabled : Bool)

/-- Apply one public operation to the state, discarding its result code. -/
def stepOp (bhv : Bhv) (w : World) : Op → World
  | .opInit => (Initialize bhv w).2
  | .opDeinit => ( Deinitialize bhv w).2
  | .opConfigure channel_id config => (ConfigureChannel bhv w channel_id config).2
  | .opSetDuty channel_id duty_cycle => (SetDutyCycle bhv w channel_id duty_cycle).2
  | .opSetFreq channel_id frequency_hz => (SetFrequency bhv w channel_id frequency_hz).2
  | .opStart channel_id => (Start bhv w channel_id).2
  | .opStop channel_id => (Stop bhv w channel_id).2
  | .opStartMany channel_ids => (StartMultiple bhv w channel_ids).2
  | .opStopMany channel_ids => (StopMultiple bhv w channel_ids).2
  | .opSetDutyMany channel_ids duty_cycles =>
      (SetDutyCycleMultiple bhv w channel_ids duty_cycles).2
  | .opSleep => (Sleep bhv w).2
  | .opWakeup => (Wakeup bhv w).2
  | .opExtClock => (ConfigureExternalClock bhv w).2
  | .opOutputDriver totem_pole => (SetOutputDriver bhv w totem_pole).2
  | .opOutputInvert inverted => (SetOutputInvert bhv w inverted).2
  | .opOutputEnable enabled => (SetOutputEnable w enabled).2

/-- Run a sequence of public operations from a given state. -/
def runOps (bhv : Bhv) : World → List Op → World
  | w, [] => w
  | w, o :: os => runOps bhv (stepOp bhv w o) os

/-- The four transactions `SetChannelTiming` issues for a channel when
every write goes through: low and high bytes of the on counter followed by
low and high bytes of the off counter. -/
def timingTxs (addr channel_id on_time off_time : Nat) : List Tx :=
  [.write addr [6 + channel_id * 4, on_time % 256],
   .write addr [6 + channel_id * 4 + 1, on_time / 256 % 256],
   .write addr [6 + channel_id * 4 + 2, off_time % 256],
   .write addr [6 + channel_id * 4 + 3, off_time / 256 % 256]]

/-- The prescale formula exactly as the specification words it:
round(OSC_FREQ / (4096 * f) - 1) with the result clamped to [3, 255].
Stated separately from `CalculatePrescale` (which follows the source) so
the two can be compared. -/
def ComputePrescaleSpec (frequency_hz : Nat) : Nat :=
  min 255 (max 3 (round ((25000000 : ℚ) / (4096 * (frequency_hz : ℚ)) - 1)).toNat)

example : DutyCycleToTiming 0 = (0, 4095) := by decide
example : DutyCycleToTiming 1 = (4095, 0) := by decide
example : DutyCycleToTiming (1/2) = (0, 2047) := by
  norm_num [DutyCycleToTiming, MAX_PWM_VALUE] <;> rfl
example : CalculatePrescale 1000 = 5 := by
  norm_num [CalculatePrescale, INTERNAL_OSC_FREQ, round_eq] <;> rfl
example : CalculatePrescale 24 = 253 := by
  norm_num [CalculatePrescale, INTERNAL_OSC_FREQ, round_eq] <;> rfl
example : CalculatePrescale 1526 = 3 := by
  norm_num [CalculatePrescale, INTERNAL_OSC_FREQ, round_eq] <;> rfl

theorem andThen_success (u : World) (k : World → HfPwmErr × World) :
    andThen (.PWM_SUCCESS, u) k = k u := rfl

theorem andThen_drv (r : HfPwmErr × World) (k : World → HfPwmErr × World)
    (hk : ∀ u, ((k u).2).drv = u.drv) : ((andThen r k).2).drv = (r.2).drv := by
  unfold andThen
  split
  · exact hk r.2
  · rfl

theorem WriteRegister_drv (bhv : Bhv) (w : World) (reg value : Nat) :
    ((WriteRegister bhv w reg value).2).drv = w.drv := by
  unfold WriteRegister
  split
  · rfl
  · dsimp only [issueTx]
    split <;> rfl

theorem ReadRegister_drv (bhv : Bhv) (w : World) (reg : Nat) :
    ((ReadRegister bhv w reg).2.2).drv = w.drv := by
  unfold ReadRegister
  split
  · rfl
  · dsimp only [issueTx]
    split <;> rfl

theorem SetChannelTiming_drv (bhv : Bhv) (w : World) (channel_id on_time off_time : Nat) :
    ((SetChannelTiming bhv w channel_id on_time off_time).2).drv = w.drv := by
  unfold SetChannelTiming
  split
  · rfl
  · refine (andThen_drv _ _ ?_).trans (WriteRegister_drv bhv w _ _)
    intro u1
    refine (andThen_drv _ _ ?_).trans (WriteRegister_drv bhv u1 _ _)
    intro u2
    refine (andThen_drv _ _ ?_).trans (WriteRegister_drv bhv u2 _ _)
    intro u3
    exact WriteRegister_drv bhv u3 _ _

theorem Sleep_drv (bhv : Bhv) (w : World) : ((Sleep bhv w).2).drv = w.drv := by
  unfold Sleep
  split
  · rfl
  · rcases hR : ReadRegister bhv w 0 with ⟨e, m, w1⟩
    have hw1 : w1.drv = w.drv := by
      have h := ReadRegister_drv bhv w 0
      rw [hR] at h
      exact h
    cases e <;>
      first
        | exact hw1
        | exact (WriteRegister_drv bhv w1 _ _).trans hw1

theorem Wakeup_drv (bhv : Bhv) (w : World) : ((Wakeup bhv w).2).drv = w.drv := by
  unfold Wakeup
  split
  · rfl
  · rcases hR : ReadRegister bhv w 0 with ⟨e, m, w1⟩
    have hw1 : w1.drv = w.drv := by
      have h := ReadRegister_drv bhv w 0
      rw [hR] at h
      exact h
    cases e <;>
      first
        | exact hw1
        | exact (WriteRegister_drv bhv w1 _ _).trans hw1

theorem andThen_channels (r : HfPwmErr × World) (k : World → HfPwmErr × World)
    (hk : ∀ u, ((k u).2).drv.channels = u.drv.channels) :
    ((andThen r k).2).drv.channels = ((r.2)).drv.channels := by
  unfold andThen
  split
  · exact hk r.2
  · rfl

theorem SetFrequency_channels (bhv : Bhv) (w : World) (channel_id frequency_hz : Nat) :
    ((SetFrequency bhv w channel_id frequency_hz).2).drv.channels = w.drv.channels := by
  unfold SetFrequency
  split
  · rfl
  split
  · rfl
  split
  · rfl
  · rcases hR : ReadRegister bhv w 0 with ⟨e, m, w1⟩
    have hw1 : w1.drv = w.drv := by
      have h := ReadRegister_drv bhv w 0
      rw [hR] at h
      exact h
    have hwr : ∀ (u : World) (a b : Nat),
        ((WriteRegister bhv u a b).2).drv.channels = u.drv.channels :=
      fun u a b => congrArg Pwm.channels (WriteRegister_drv bhv u a b)
    cases e <;>
      first
        | exact congrArg Pwm.channels hw1
        | · refine ((andThen_channels _ _ ?_).trans ((hwr w1 _ _).trans
              (congrArg Pwm.channels hw1)))
            intro u1
            refine (andThen_channels _ _ ?_).trans (hwr u1 _ _)
            intro u2
            refine (andThen_channels _ _ ?_).trans (hwr u2 _ _)
            intro u3
            rfl

theorem ConfigureExternalClock_drv (bhv : Bhv) (w : World) :
    ((ConfigureExternalClock bhv w).2).drv = w.drv := by
  unfold ConfigureExternalClock
  split
  · rfl
  · rcases hR : ReadRegister bhv w 0 with ⟨e, m, w1⟩
    have hw1 : w1.drv = w.drv := by
      have h := ReadRegister_drv bhv w 0
      rw [hR] at h
      exact h
    cases e <;>
      first
        | exact hw1
        | exact (WriteRegister_drv bhv w1 _ _).trans hw1

theorem SetOutputDriver_drv (bhv : Bhv) (w : World) (totem_pole : Bool) :
    ((SetOutputDriver bhv w totem_pole).2).drv = w.drv := by
  unfold SetOutputDriver
  split
  · rfl
  · rcases hR : ReadRegister bhv w 1 with ⟨e, m, w1⟩
    have hw1 : w1.drv = w.drv := by
      have h := ReadRegister_drv bhv w 1
      rw [hR] at h
      exact h
    cases e <;>
      first
        | exact hw1
        | exact (WriteRegister_drv bhv w1 _ _).trans hw1

theorem SetOutputInvert_drv (bhv : Bhv) (w : World) (inverted : Bool) :
    ((SetOutputInvert bhv w inverted).2).drv = w.drv := by
  unfold SetOutputInvert
  split
  · rfl
  · rcases hR : ReadRegister bhv w 1 with ⟨e, m, w1⟩
    have hw1 : w1.drv = w.drv := by
      have h := ReadRegister_drv bhv w 1
      rw [hR] at h
      exact h
    cases e <;>
      first
        | exact hw1
        | exact (WriteRegister_drv bhv w1 _ _).trans hw1

theorem SetOutputEnable_snd (w : World) (enabled : Bool) :
    (SetOutputEnable w enabled).2 = w := by
  simp only [SetOutputEnable]
  split <;> rfl

theorem chanInv_of_channels_eq {w1 w2 : World}
    (h : w1.drv.channels = w2.drv.channels) (h2 : ChanInv w2) : ChanInv w1 := by
  intro i
  rw [show w1.drv.channels i = w2.drv.channels i from congrFun h i]
  exact h2 i

theorem chanInv_of_drv_eq {w1 w2 : World} (h : w1.drv = w2.drv) (h2 : ChanInv w2) :
    ChanInv w1 :=
  chanInv_of_channels_eq (by rw [h]) h2

/-- The timing mapper never produces a counter above 4095. -/
theorem dutyCycleToTiming_le (duty_cycle : ℚ) :
    (DutyCycleToTiming duty_cycle).1 ≤ 4095 ∧ (DutyCycleToTiming duty_cycle).2 ≤ 4095 := by
  unfold DutyCycleToTiming MAX_PWM_VALUE
  split
  · exact ⟨by norm_num, by norm_num⟩
  · split
    · exact ⟨by norm_num, by norm_num⟩
    · rename_i hle hlt
      have hd1 : duty_cycle < 1 := lt_of_not_le hlt
      have hfl : ⌊duty_cycle * ((4095 : Nat) : ℚ)⌋ < 4095 := by
        apply Int.floor_lt.mpr
        push_cast
        nlinarith
      exact ⟨by norm_num, by omega⟩

theorem chanInv_update {w : World} (h : ChanInv w) (channel_id : Nat)
    (rec : ChannelState) (hon : rec.on_time ≤ 4095) (hoff : rec.off_time ≤ 4095) :
    ChanInv { w with drv := { w.drv with
        channels := Function.update w.drv.channels channel_id rec } } := by
  intro i
  simp only [Function.update_apply]
  split
  · exact ⟨hon, hoff⟩
  · exact h i

theorem andThen_chanInv (r : HfPwmErr × World) (k : World → HfPwmErr × World)
    (hr : ChanInv r.2) (hk : ∀ u, ChanInv u → ChanInv ((k u).2)) :
    ChanInv ((andThen r k).2) := by
  unfold andThen
  split
  · exact hk r.2 hr
  · exact hr

theorem Reset_chanInv (bhv : Bhv) (w : World) (h : ChanInv w) :
    ChanInv ((Reset bhv w).2) := by
  unfold Reset
  split
  · exact h
  · dsimp only [issueTx]
    split
    · exact fun i => h i
    · intro i
      dsimp only []
      split
      · exact ⟨Nat.zero_le _, Nat.zero_le _⟩
      · exact h i

theorem SetFrequency_chanInv (bhv : Bhv) (w : World) (channel_id frequency_hz : Nat)
    (h : ChanInv w) : ChanInv ((SetFrequency bhv w channel_id frequency_hz).2) :=
  chanInv_of_channels_eq (SetFrequency_channels bhv w channel_id frequency_hz) h

theorem SetDutyCycle_chanInv (bhv : Bhv) (w : World) (channel_id : Nat) (duty_cycle : ℚ)
    (h : ChanInv w) : ChanInv ((SetDutyCycle bhv w channel_id duty_cycle).2) := by
  unfold SetDutyCycle
  split
  · exact h
  split
  · exact h
  split
  · exact h
  · dsimp only []
    rcases hS : SetChannelTiming bhv w channel_id (DutyCycleToTiming duty_cycle).1
        (DutyCycleToTiming duty_cycle).2 with ⟨e, w1⟩
    have hw1 : ChanInv w1 := by
      have hd := SetChannelTiming_drv bhv w channel_id (DutyCycleToTiming duty_cycle).1
        (DutyCycleToTiming duty_cycle).2
      rw [hS] at hd
      exact chanInv_of_drv_eq hd h
    cases e
    case PWM_SUCCESS =>
      exact chanInv_update hw1 channel_id _ (dutyCycleToTiming_le duty_cycle).1
        (dutyCycleToTiming_le duty_cycle).2
    all_goals exact hw1

theorem Start_chanInv (bhv : Bhv) (w : World) (channel_id : Nat) (h : ChanInv w) :
    ChanInv ((Start bhv w channel_id).2) := by
  unfold Start
  split
  · exact h
  split
  · exact h
  · rcases hS : SetChannelTiming bhv w channel_id (w.drv.channels channel_id).on_time
        (w.drv.channels channel_id).off_time with ⟨e, w1⟩
    have hw1 : ChanInv w1 := by
      have hd := SetChannelTiming_drv bhv w channel_id
        (w.drv.channels channel_id).on_time (w.drv.channels channel_id).off_time
      rw [hS] at hd
      exact chanInv_of_drv_eq hd h
    cases e
    case PWM_SUCCESS =>
      exact chanInv_update hw1 channel_id _ (hw1 channel_id).1 (hw1 channel_id).2
    all_goals exact hw1

theorem Stop_chanInv (bhv : Bhv) (w : World) (channel_id : Nat) (h : ChanInv w) :
    ChanInv ((Stop bhv w channel_id).2) := by
  unfold Stop
  split
  · exact h
  split
  · exact h
  · rcases hS : SetChannelTiming bhv w channel_id 0 MAX_PWM_VALUE with ⟨e, w1⟩
    have hw1 : ChanInv w1 := by
      have hd := SetChannelTiming_drv bhv w channel_id 0 MAX_PWM_VALUE
      rw [hS] at hd
      exact chanInv_of_drv_eq hd h
    cases e
    case PWM_SUCCESS =>
      exact chanInv_update hw1 channel_id _ (hw1 channel_id).1 (hw1 channel_id).2
    all_goals exact hw1

theorem ConfigureChannel_chanInv (bhv : Bhv) (w : World) (channel_id : Nat)
    (config : PwmChannelConfig) (h : ChanInv w) :
    ChanInv ((ConfigureChannel bhv w channel_id config).2) := by
  unfold ConfigureChannel
  split
  · exact h
  split
  · exact h
  split
  · exact h
  split
  · exact h
  · exact andThen_chanInv _ _ (SetFrequency_chanInv bhv w channel_id config.frequency_hz h)
      (fun u hu => SetDutyCycle_chanInv bhv u channel_id config.initial_duty_cycle hu)

theorem Initialize_chanInv (bhv : Bhv) (w : World) (h : ChanInv w) :
    ChanInv ((Initialize bhv w).2) := by
  unfold Initialize
  split
  · exact h
  split
  · exact h
  · dsimp only [issueTx]
    split
    · exact fun i => h i
    · refine andThen_chanInv _ _ (Reset_chanInv bhv _ (fun i => h i)) ?_
      intro u1 hu1
      refine andThen_chanInv _ _ (SetFrequency_chanInv bhv u1 0 _ hu1) ?_
      intro u2 hu2
      refine andThen_chanInv _ _ (chanInv_of_drv_eq (WriteRegister_drv bhv u2 1 4) hu2) ?_
      intro u3 hu3
      refine andThen_chanInv _ _ (chanInv_of_drv_eq (Wakeup_drv bhv u3) hu3) ?_
      intro u4 hu4
      exact fun i => hu4 i

theorem foldlStop_chanInv (bhv : Bhv) :
    ∀ (l : List Nat) (w : World), ChanInv w →
      ChanInv (l.foldl (fun w i => (Stop bhv w i).2) w)
  | [], _, h => h
  | c :: cs, w, h => foldlStop_chanInv bhv cs ((Stop bhv w c).2) (Stop_chanInv bhv w c h)

theorem Deinitialize_chanInv (bhv : Bhv) (w : World) (h : ChanInv w) :
    ChanInv (( Deinitialize bhv w).2) := by
  unfold Deinitialize
  split
  · exact h
  · dsimp only []
    have h1 : ChanInv ((List.range MAX_CHANNELS).foldl (fun w i => (Stop bhv w i).2) w) :=
      foldlStop_chanInv bhv (List.range MAX_CHANNELS) w h
    have h2 : ChanInv ((Sleep bhv
        ((List.range MAX_CHANNELS).foldl (fun w i => (Stop bhv w i).2) w)).2) :=
      chanInv_of_drv_eq (Sleep_drv bhv _) h1
    split
    · exact fun i => h2 i
    · exact fun i => h2 i

theorem startList_chanInv (bhv : Bhv) :
    ∀ (l : List Nat) (w : World), ChanInv w → ChanInv ((startList bhv w l).2)
  | [], _, h => h
  | c :: cs, w, h => by
    unfold startList
    rcases hS : Start bhv w c with ⟨e, w1⟩
    have hw1 : ChanInv w1 := by
      have hc := Start_chanInv bhv w c h
      rw [hS] at hc
      exact hc
    cases e
    case PWM_SUCCESS => exact startList_chanInv bhv cs w1 hw1
    all_goals exact hw1

theorem stopList_chanInv (bhv : Bhv) :
    ∀ (l : List Nat) (w : World), ChanInv w → ChanInv ((stopList bhv w l).2)
  | [], _, h => h
  | c :: cs, w, h => by
    unfold stopList
    rcases hS : Stop bhv w c with ⟨e, w1⟩
    have hw1 : ChanInv w1 := by
      have hc := Stop_chanInv bhv w c h
      rw [hS] at hc
      exact hc
    cases e
    case PWM_SUCCESS => exact stopList_chanInv bhv cs w1 hw1
    all_goals exact hw1

theorem setDutyList_chanInv (bhv : Bhv) :
    ∀ (l : List (Nat × ℚ)) (w : World), ChanInv w → ChanInv ((setDutyList bhv w l).2)
  | [], _, h => h
  | p :: ps, w, h => by
    unfold setDutyList
    rcases hS : SetDutyCycle bhv w p.1 p.2 with ⟨e, w1⟩
    have hw1 : ChanInv w1 := by
      have hc := SetDutyCycle_chanInv bhv w p.1 p.2 h
      rw [hS] at hc
      exact hc
    cases e
    case PWM_SUCCESS => exact setDutyList_chanInv bhv ps w1 hw1
    all_goals exact hw1

theorem StartMultiple_chanInv (bhv : Bhv) (w : World) (channel_ids : Option (List Nat))
    (h : ChanInv w) : ChanInv ((StartMultiple bhv w channel_ids).2) := by
  unfold StartMultiple
  rcases channel_ids with _ | ids
  · exact h
  · dsimp only []
    split
    · exact h
    · exact startList_chanInv bhv ids w h

theorem StopMultiple_chanInv (bhv : Bhv) (w : World) (channel_ids : Option (List Nat))
    (h : ChanInv w) : ChanInv ((StopMultiple bhv w channel_ids).2) := by
  unfold StopMultiple
  rcases channel_ids with _ | ids
  · exact h
  · dsimp only []
    split
    · exact h
    · exact stopList_chanInv bhv ids w h

theorem SetDutyCycleMultiple_chanInv (bhv : Bhv) (w : World)
    (channel_ids : Option (List Nat)) (duty_cycles : Option (List ℚ)) (h : ChanInv w) :
    ChanInv ((SetDutyCycleMultiple bhv w channel_ids duty_cycles).2) := by
  unfold SetDutyCycleMultiple
  rcases channel_ids with _ | ids
  · exact h
  · rcases duty_cycles with _ | ds
    · exact h
    · dsimp only []
      split
      · exact h
      · exact setDutyList_chanInv bhv (ids.zip ds) w h

theorem stepOp_chanInv (bhv : Bhv) (w : World) (o : Op) (h : ChanInv w) :
    ChanInv (stepOp bhv w o) := by
  cases o
  case opInit => exact Initialize_chanInv bhv w h
  case opDeinit => exact Deinitialize_chanInv bhv w h
  case opConfigure channel_id config => exact ConfigureChannel_chanInv bhv w channel_id config h
  case opSetDuty channel_id duty_cycle => exact SetDutyCycle_chanInv bhv w channel_id duty_cycle h
  case opSetFreq channel_id frequency_hz =>
    exact SetFrequency_chanInv bhv w channel_id frequency_hz h
  case opStart channel_id => exact Start_chanInv bhv w channel_id h
  case opStop channel_id => exact Stop_chanInv bhv w channel_id h
  case opStartMany channel_ids => exact StartMultiple_chanInv bhv w channel_ids h
  case opStopMany channel_ids => exact StopMultiple_chanInv bhv w channel_ids h
  case opSetDutyMany channel_ids duty_cycles =>
    exact SetDutyCycleMultiple_chanInv bhv w channel_ids duty_cycles h
  case opSleep => exact chanInv_of_drv_eq (Sleep_drv bhv w) h
  case opWakeup => exact chanInv_of_drv_eq (Wakeup_drv bhv w) h
  case opExtClock => exact chanInv_of_drv_eq (ConfigureExternalClock_drv bhv w) h
  case opOutputDriver totem_pole => exact chanInv_of_drv_eq (SetOutputDriver_drv bhv w totem_pole) h
  case opOutputInvert inverted => exact chanInv_of_drv_eq (SetOutputInvert_drv bhv w inverted) h
  case opOutputEnable enabled =>
    exact chanInv_of_drv_eq (congrArg World.drv (SetOutputEnable_snd w enabled)) h

theorem runOps_chanInv (bhv : Bhv) :
    ∀ (ops : List Op) (w : World), ChanInv w → ChanInv (runOps bhv w ops)
  | [], _, h => h
  | o :: os, w, h => runOps_chanInv bhv os (stepOp bhv w o) (stepOp_chanInv bhv w o h)

theorem WriteRegister_ok (bhv : Bhv) (w : World) (reg value : Nat)
    (hp : w.drv.i2c_present = true) (hok : bhv.ok w.txCount = true) :
    WriteRegister bhv w reg value =
      (.PWM_SUCCESS,
        { w with
          txCount := w.txCount + 1
          trace := w.trace ++ [.write w.drv.i2c_address [reg, value]] }) := by
  simp [WriteRegister, issueTx, hp, hok]

theorem WriteRegister_fail (bhv : Bhv) (w : World) (reg value : Nat)
    (hp : w.drv.i2c_present = true) (hbad : bhv.ok w.txCount = false) :
    WriteRegister bhv w reg value =
      (.PWM_HARDWARE_ERROR,
        { w with
          txCount := w.txCount + 1
          trace := w.trace ++ [.write w.drv.i2c_address [reg, value]] }) := by
  simp [WriteRegister, issueTx, hp, hbad]

theorem ReadRegister_ok (bhv : Bhv) (w : World) (reg : Nat)
    (hp : w.drv.i2c_present = true) (hok : bhv.ok w.txCount = true) :
    ReadRegister bhv w reg =
      (.PWM_SUCCESS, bhv.readVal w.txCount % 256,
        { w with
          txCount := w.txCount + 1
          trace := w.trace ++ [.writeRead w.drv.i2c_address [reg]] }) := by
  simp [ReadRegister, issueTx, hp, hok]

theorem ReadRegister_fail (bhv : Bhv) (w : World) (reg : Nat)
    (hp : w.drv.i2c_present = true) (hbad : bhv.ok w.txCount = false) :
    ReadRegister bhv w reg =
      (.PWM_HARDWARE_ERROR, 0,
        { w with
          txCount := w.txCount + 1
          trace := w.trace ++ [.writeRead w.drv.i2c_address [reg]] }) := by
  simp [ReadRegister, issueTx, hp, hbad]

theorem isValidChannel_true {channel_id : Nat} (hch : channel_id < 16) :
    IsValidChannel channel_id = true := by
  simp only [IsValidChannel, MAX_CHANNELS, decide_eq_true_eq]
  omega

theorem SetChannelTiming_ok (bhv : Bhv) (w : World) (channel_id on_time off_time : Nat)
    (hch : channel_id < 16) (hp : w.drv.i2c_present = true)
    (hok : ∀ n, bhv.ok n = true) :
    SetChannelTiming bhv w channel_id on_time off_time =
      (.PWM_SUCCESS,
        { w with
          txCount := w.txCount + 4
          trace := w.trace ++ timingTxs w.drv.i2c_address channel_id on_time off_time }) := by
  simp [SetChannelTiming, isValidChannel_true hch, andThen, WriteRegister_ok, hp, hok,
    timingTxs, List.append_assoc]

theorem Stop_ok (bhv : Bhv) (w : World) (channel_id : Nat)
    (hi : w.drv.is_initialized = true) (hch : channel_id < 16)
    (hp : w.drv.i2c_present = true) (hok : ∀ n, bhv.ok n = true) :
    Stop bhv w channel_id =
      (.PWM_SUCCESS,
        { w with
          txCount := w.txCount + 4
          trace := w.trace ++ timingTxs w.drv.i2c_address channel_id 0 4095
          drv := { w.drv with
            channels := Function.update w.drv.channels channel_id
              { w.drv.channels channel_id with is_active := false } } }) := by
  simp [Stop, hi, isValidChannel_true hch, MAX_PWM_VALUE,
    SetChannelTiming_ok bhv w channel_id 0 4095 hch hp hok]

theorem Start_ok (bhv : Bhv) (w : World) (channel_id : Nat)
    (hi : w.drv.is_initialized = true) (hch : channel_id < 16)
    (hp : w.drv.i2c_present = true) (hok : ∀ n, bhv.ok n = true) :
    Start bhv w channel_id =
      (.PWM_SUCCESS,
        { w with
          txCount := w.txCount + 4
          trace := w.trace ++ timingTxs w.drv.i2c_address channel_id
            (w.drv.channels channel_id).on_time (w.drv.channels channel_id).off_time
          drv := { w.drv with
            channels := Function.update w.drv.channels channel_id
              { w.drv.channels channel_id with is_active := true } } }) := by
  simp [Start, hi, isValidChannel_true hch,
    SetChannelTiming_ok bhv w channel_id (w.drv.channels channel_id).on_time
      (w.drv.channels channel_id).off_time hch hp hok]

theorem SetDutyCycle_ok (bhv : Bhv) (w : World) (channel_id : Nat) (duty_cycle : ℚ)
    (hi : w.drv.is_initialized = true) (hch : channel_id < 16)
    (h0 : 0 ≤ duty_cycle) (h1 : duty_cycle ≤ 1)
    (hp : w.drv.i2c_present = true) (hok : ∀ n, bhv.ok n = true) :
    SetDutyCycle bhv w channel_id duty_cycle =
      (.PWM_SUCCESS,
        { w with
          txCount := w.txCount + 4
          trace := w.trace ++ timingTxs w.drv.i2c_address channel_id
            (DutyCycleToTiming duty_cycle).1 (DutyCycleToTiming duty_cycle).2
          drv := { w.drv with
            channels := Function.update w.drv.channels channel_id
              { w.drv.channels channel_id with
                  duty_cycle := duty_cycle
                  on_time := (DutyCycleToTiming duty_cycle).1
                  off_time := (DutyCycleToTiming duty_cycle).2 } } }) := by
  have hd : ¬(duty_cycle < 0 ∨ 1 < duty_cycle) := by
    push_neg
    exact ⟨h0, h1⟩
  simp [SetDutyCycle, hi, isValidChannel_true hch, hd,
    SetChannelTiming_ok bhv w channel_id (DutyCycleToTiming duty_cycle).1
      (DutyCycleToTiming duty_cycle).2 hch hp hok]

theorem GetDutyCycle_eq (w : World) (channel_id : Nat)
    (hi : w.drv.is_initialized = true) (hch : channel_id < 16) :
    GetDutyCycle w channel_id =
      (.PWM_SUCCESS, some (w.drv.channels channel_id).duty_cycle) := by
  simp [GetDutyCycle, hi, isValidChannel_true hch]

/-- C1: on a freshly constructed driver with a present transport whose
transactions all succeed, the first Initialize call is claimed to return
success and leave the driver initialized.  The code instead returns
PWM_NOT_INITIALIZED and leaves the flag clear: Initialize calls
SetFrequency before setting is_initialized_, and SetFrequency rejects any
call while the flag is still false. -/
theorem c1_first_initialize_fails :
    (Initialize bhvOk freshWorld).1 = HfPwmErr.PWM_NOT_INITIALIZED ∧
    ((Initialize bhvOk freshWorld).2).drv.is_initialized = false := by
  constructor <;> rfl

/-- C2 counterexample: on an uninitialized driver, a channel-scoped call
with channel 16 returns PWM_NOT_INITIALIZED, not PWM_INVALID_CHANNEL as
the claim states, because the initialized check runs first. -/
theorem c2_counterexample :
    (SetDutyCycle bhvOk freshWorld 16 0).1 = HfPwmErr.PWM_NOT_INITIALIZED ∧
    HfPwmErr.PWM_NOT_INITIALIZED ≠ HfPwmErr.PWM_INVALID_CHANNEL := by
  exact ⟨rfl, by decide⟩

/-- C2 amended: every channel-scoped operation with channel_id at least 16
returns PWM_INVALID_CHANNEL when the driver is initialized; when it is
uninitialized the initialized check fires first and each returns
PWM_NOT_INITIALIZED. -/
theorem c2_invalid_channel (bhv : Bhv) (w : World) (channel_id : Nat)
    (config : PwmChannelConfig) (duty_cycle : ℚ) (frequency_hz : Nat)
    (hch : 16 ≤ channel_id) :
    (w.drv.is_initialized = true →
      (ConfigureChannel bhv w channel_id config).1 = HfPwmErr.PWM_INVALID_CHANNEL ∧
      (SetDutyCycle bhv w channel_id duty_cycle).1 = HfPwmErr.PWM_INVALID_CHANNEL ∧
      (SetFrequency bhv w channel_id frequency_hz).1 = HfPwmErr.PWM_INVALID_CHANNEL ∧
      (Start bhv w channel_id).1 = HfPwmErr.PWM_INVALID_CHANNEL ∧
      (Stop bhv w channel_id).1 = HfPwmErr.PWM_INVALID_CHANNEL ∧
      (GetDutyCycle w channel_id).1 = HfPwmErr.PWM_INVALID_CHANNEL ∧
      (GetFrequency w channel_id).1 = HfPwmErr.PWM_INVALID_CHANNEL) ∧
    (w.drv.is_initialized = false →
      (ConfigureChannel bhv w channel_id config).1 = HfPwmErr.PWM_NOT_INITIALIZED ∧
      (SetDutyCycle bhv w channel_id duty_cycle).1 = HfPwmErr.PWM_NOT_INITIALIZED ∧
      (SetFrequency bhv w channel_id frequency_hz).1 = HfPwmErr.PWM_NOT_INITIALIZED ∧
      (Start bhv w channel_id).1 = HfPwmErr.PWM_NOT_INITIALIZED ∧
      (Stop bhv w channel_id).1 = HfPwmErr.PWM_NOT_INITIALIZED ∧
      (GetDutyCycle w channel_id).1 = HfPwmErr.PWM_NOT_INITIALIZED ∧
      (GetFrequency w channel_id).1 = HfPwmErr.PWM_NOT_INITIALIZED) := by
  have hv : IsValidChannel channel_id = false := by
    simp only [IsValidChannel, MAX_CHANNELS, decide_eq_false_iff_not]
    omega
  constructor
  · intro hi
    refine ⟨?_, ?_, ?_, ?_, ?_, ?_, ?_⟩ <;>
      simp [ConfigureChannel, SetDutyCycle, SetFrequency, Start, Stop,
        GetDutyCycle, GetFrequency, hi, hv]
  · intro hi
    refine ⟨?_, ?_, ?_, ?_, ?_, ?_, ?_⟩ <;>
      simp [ConfigureChannel, SetDutyCycle, SetFrequency, Start, Stop,
        GetDutyCycle, GetFrequency, hi]

/-- C2 witness: the amended theorem evaluated at channel 16 on concrete
initialized and uninitialized states. -/
theorem c2_witness :
    (SetDutyCycle bhvOk initWorld 16 0).1 = HfPwmErr.PWM_INVALID_CHANNEL ∧
    (Stop bhvOk initWorld 16).1 = HfPwmErr.PWM_INVALID_CHANNEL ∧
    (Stop bhvOk freshWorld 16).1 = HfPwmErr.PWM_NOT_INITIALIZED :=
  ⟨((c2_invalid_channel bhvOk initWorld 16 ⟨1000, 0⟩ 0 1000 (by norm_num)).1 rfl).2.1,
   ((c2_invalid_channel bhvOk initWorld 16 ⟨1000, 0⟩ 0 1000 (by norm_num)).1 rfl).2.2.2.2.1,
   ((c2_invalid_channel bhvOk freshWorld 16 ⟨1000, 0⟩ 0 1000 (by norm_num)).2 rfl).2.2.2.2.1⟩

/-- C3 counterexample: at duty cycle one half the mapper yields an off
count of 2047 (truncation), not round(0.5 * 4095) = 2048 as the claim
states. -/
theorem c3_counterexample :
    DutyCycleToTiming (1/2) ≠ (0, (round ((1/2 : ℚ) * 4095)).toNat) := by
  have h1 : DutyCycleToTiming (1/2) = (0, 2047) := by
    norm_num [DutyCycleToTiming, MAX_PWM_VALUE] <;> rfl
  have h2 : (round ((1/2 : ℚ) * 4095)).toNat = 2048 := by
    norm_num [round_eq] <;> rfl
  rw [h1, h2]
  decide

/-- C3 amended: the mapper yields (0, 4095) for duty at most 0, (4095, 0)
for duty at least 1, and in between (0, off) where off is the truncation
of duty * 4095 (so off is within 1 below the exact product and never
exceeds 4094); at 0.5 this puts off within rounding distance of 2048. -/
theorem c3_timing_mapper (duty_cycle : ℚ) :
    (duty_cycle ≤ 0 → DutyCycleToTiming duty_cycle = (0, 4095)) ∧
    (1 ≤ duty_cycle → DutyCycleToTiming duty_cycle = (4095, 0)) ∧
    (0 < duty_cycle → duty_cycle < 1 →
      (DutyCycleToTiming duty_cycle).1 = 0 ∧
      ((DutyCycleToTiming duty_cycle).2 : ℚ) ≤ duty_cycle * 4095 ∧
      duty_cycle * 4095 < (DutyCycleToTiming duty_cycle).2 + 1 ∧
      (DutyCycleToTiming duty_cycle).2 ≤ 4094) := by
  refine ⟨?_, ?_, ?_⟩
  · intro h
    simp [DutyCycleToTiming, MAX_PWM_VALUE, h]
  · intro h
    have h0 : ¬duty_cycle ≤ 0 := by linarith
    simp [DutyCycleToTiming, MAX_PWM_VALUE, h, h0]
  · intro hlt0 hlt1
    have h0 : ¬duty_cycle ≤ 0 := by linarith
    have h1 : ¬(1 : ℚ) ≤ duty_cycle := by linarith
    have hcast : ((MAX_PWM_VALUE : Nat) : ℚ) = 4095 := by norm_num [MAX_PWM_VALUE]
    have hx : (0 : ℚ) ≤ duty_cycle * ((MAX_PWM_VALUE : Nat) : ℚ) := by
      rw [hcast]; nlinarith
    have hnn : 0 ≤ ⌊duty_cycle * ((MAX_PWM_VALUE : Nat) : ℚ)⌋ := Int.floor_nonneg.mpr hx
    have hle : (⌊duty_cycle * ((MAX_PWM_VALUE : Nat) : ℚ)⌋ : ℚ) ≤
        duty_cycle * ((MAX_PWM_VALUE : Nat) : ℚ) := Int.floor_le _
    have hltf : duty_cycle * ((MAX_PWM_VALUE : Nat) : ℚ) <
        ⌊duty_cycle * ((MAX_PWM_VALUE : Nat) : ℚ)⌋ + 1 := Int.lt_floor_add_one _
    have hbd : ⌊duty_cycle * ((MAX_PWM_VALUE : Nat) : ℚ)⌋ < 4095 := by
      apply Int.floor_lt.mpr
      rw [hcast]
      push_cast
      nlinarith
    refine ⟨?_, ?_, ?_, ?_⟩
    · simp [DutyCycleToTiming, h0, h1]
    · simp only [DutyCycleToTiming, if_neg h0, if_neg h1]
      rw [show ((((⌊duty_cycle * ((MAX_PWM_VALUE : Nat) : ℚ)⌋).toNat : Nat) : ℚ)) =
          ((⌊duty_cycle * ((MAX_PWM_VALUE : Nat) : ℚ)⌋ : ℤ) : ℚ) by
        exact_mod_cast congrArg (fun z : ℤ => (z : ℚ)) (Int.toNat_of_nonneg hnn)]
      rw [hcast] at hle
      exact hle
    · simp only [DutyCycleToTiming, if_neg h0, if_neg h1]
      rw [show ((((⌊duty_cycle * ((MAX_PWM_VALUE : Nat) : ℚ)⌋).toNat : Nat) : ℚ)) =
          ((⌊duty_cycle * ((MAX_PWM_VALUE : Nat) : ℚ)⌋ : ℤ) : ℚ) by
        exact_mod_cast congrArg (fun z : ℤ => (z : ℚ)) (Int.toNat_of_nonneg hnn)]
      rw [hcast] at hltf
      exact hltf
    · simp only [DutyCycleToTiming, if_neg h0, if_neg h1]
      omega

/-- C3 witness: the amended mid-range case evaluated at duty cycle one
half, where the off count is 2047. -/
theorem c3_witness :
    (DutyCycleToTiming (1/2)).1 = 0 ∧
    ((DutyCycleToTiming (1/2)).2 : ℚ) ≤ (1/2 : ℚ) * 4095 ∧
    (1/2 : ℚ) * 4095 < (DutyCycleToTiming (1/2)).2 + 1 ∧
    (DutyCycleToTiming (1/2)).2 ≤ 4094 :=
  (c3_timing_mapper (1/2)).2.2 (by norm_num) (by norm_num)

/-- C5 counterexample: on an initialized driver whose transport fails
every transaction, Deinitialize still returns PWM_SUCCESS (all 18 failing
transactions were attempted: one write per stopped channel, the sleep
read, and the transport release), contradicting the claim that it aborts
with the first hardware error. -/
theorem c5_counterexample :
    ( Deinitialize bhvFail initWorld).1 = HfPwmErr.PWM_SUCCESS ∧
    ( Deinitialize bhvFail initWorld).2.trace.length = 18 := by
  exact ⟨rfl, by decide⟩

/-- C5 amended: the multi-step operations abort at the first transport
error and return it — SetChannelTiming and SetFrequency stop right after
the first failing transaction whichever position it occupies,
SetDutyCycle returns SetChannelTiming's error unchanged (skipping the
channel-store update), ConfigureChannel returns SetFrequency's error
without reaching SetDutyCycle, Initialize returns the error of the first
failing step (including the propagated SetFrequency error), and the batch
operations return the first failing channel's error without touching the
rest — but Deinitialize is the exception: it discards the results of
stopping, sleeping and releasing the transport and returns success
whenever the driver was initialized, PWM_NOT_INITIALIZED otherwise. -/
theorem c5_deinit_ignores_errors (bhv : Bhv) (w : World) :
    (w.drv.is_initialized = true →
      ( Deinitialize bhv w).1 = HfPwmErr.PWM_SUCCESS ∧
      ( Deinitialize bhv w).2.drv.is_initialized = false) ∧
    (w.drv.is_initialized = false →
      ( Deinitialize bhv w).1 = HfPwmErr.PWM_NOT_INITIALIZED) ∧
    (∀ channel_id on_time off_time k, channel_id < 16 → w.drv.i2c_present = true →
      k < 4 → (∀ j, j < k → bhv.ok (w.txCount + j) = true) →
      bhv.ok (w.txCount + k) = false →
      (SetChannelTiming bhv w channel_id on_time off_time).1 =
        HfPwmErr.PWM_HARDWARE_ERROR ∧
      (SetChannelTiming bhv w channel_id on_time off_time).2.trace =
        w.trace ++
          List.take (k + 1) (timingTxs w.drv.i2c_address channel_id on_time off_time) ∧
      (SetChannelTiming bhv w channel_id on_time off_time).2.txCount =
        w.txCount + (k + 1)) ∧
    (∀ channel_id frequency_hz k, w.drv.is_initialized = true → channel_id < 16 →
      24 ≤ frequency_hz → frequency_hz ≤ 1526 → w.drv.i2c_present = true →
      k < 4 → (∀ j, j < k → bhv.ok (w.txCount + j) = true) →
      bhv.ok (w.txCount + k) = false →
      (SetFrequency bhv w channel_id frequency_hz).1 = HfPwmErr.PWM_HARDWARE_ERROR ∧
      (SetFrequency bhv w channel_id frequency_hz).2.txCount = w.txCount + (k + 1)) ∧
    (∀ channel_id duty_cycle e w1, w.drv.is_initialized = true → channel_id < 16 →
      0 ≤ duty_cycle → duty_cycle ≤ 1 →
      SetChannelTiming bhv w channel_id (DutyCycleToTiming duty_cycle).1
        (DutyCycleToTiming duty_cycle).2 = (e, w1) →
      e ≠ HfPwmErr.PWM_SUCCESS →
      SetDutyCycle bhv w channel_id duty_cycle = (e, w1)) ∧
    (∀ channel_id config e w1, w.drv.is_initialized = true → channel_id < 16 →
      24 ≤ config.frequency_hz → config.frequency_hz ≤ 1526 →
      0 ≤ config.initial_duty_cycle → config.initial_duty_cycle ≤ 1 →
      SetFrequency bhv w channel_id config.frequency_hz = (e, w1) →
      e ≠ HfPwmErr.PWM_SUCCESS →
      ConfigureChannel bhv w channel_id config = (e, w1)) ∧
    (w.drv.is_initialized = false → w.drv.i2c_present = true →
      (bhv.ok w.txCount = false →
        Initialize bhv w = (HfPwmErr.PWM_HARDWARE_ERROR,
          { w with
            txCount := w.txCount + 1
            trace := w.trace ++ [Tx.busInit] })) ∧
      (bhv.ok w.txCount = true → bhv.ok (w.txCount + 1) = false →
        Initialize bhv w = (HfPwmErr.PWM_HARDWARE_ERROR,
          { w with
            txCount := w.txCount + 2
            trace := w.trace ++ [Tx.busInit, Tx.write 0 [0, 6]] })) ∧
      (bhv.ok w.txCount = true → bhv.ok (w.txCount + 1) = true →
        (Initialize bhv w).1 = HfPwmErr.PWM_NOT_INITIALIZED ∧
        (Initialize bhv w).2.txCount = w.txCount + 2)) ∧
    (∀ c cs e w1, Start bhv w c = (e, w1) → e ≠ HfPwmErr.PWM_SUCCESS →
      StartMultiple bhv w (some (c :: cs)) = (e, w1)) ∧
    (∀ c cs e w1, Stop bhv w c = (e, w1) → e ≠ HfPwmErr.PWM_SUCCESS →
      StopMultiple bhv w (some (c :: cs)) = (e, w1)) ∧
    (∀ c cs d ds e w1, SetDutyCycle bhv w c d = (e, w1) → e ≠ HfPwmErr.PWM_SUCCESS →
      SetDutyCycleMultiple bhv w (some (c :: cs)) (some (d :: ds)) = (e, w1)) := by
  refine ⟨?_, ?_, ?_, ?_, ?_, ?_, ?_, ?_, ?_, ?_⟩
  · intro hi
    unfold Deinitialize
    rw [if_neg (by simp [hi])]
    exact ⟨rfl, rfl⟩
  · intro hi
    unfold Deinitialize
    rw [if_pos hi]
  · intro channel_id on_time off_time k hch hp hk hoks hbad
    obtain ⟨drv, txc, tr⟩ := w
    simp only [] at hp hoks hbad ⊢
    simp only [SetChannelTiming]
    rw [if_neg (by simp [isValidChannel_true hch])]
    try dsimp only []
    interval_cases k
    · have h0 : bhv.ok txc = false := by simpa using hbad
      rw [WriteRegister_fail bhv _ _ _ hp h0]
      refine ⟨?_, ?_, ?_⟩ <;> simp [andThen, timingTxs]
    · have h0 : bhv.ok txc = true := by simpa using hoks 0 (by omega)
      have h1 : bhv.ok (txc + 1) = false := hbad
      rw [WriteRegister_ok bhv _ _ _ hp h0, andThen_success]
      try dsimp only []
      rw [WriteRegister_fail bhv _ _ _ hp h1]
      refine ⟨?_, ?_, ?_⟩ <;> simp [andThen, timingTxs]
    · have h0 : bhv.ok txc = true := by simpa using hoks 0 (by omega)
      have h1 : bhv.ok (txc + 1) = true := hoks 1 (by omega)
      have h2 : bhv.ok (txc + 1 + 1) = false := by
        have h := hbad
        simpa [Nat.add_assoc] using h
      rw [WriteRegister_ok bhv _ _ _ hp h0, andThen_success]
      try dsimp only []
      rw [WriteRegister_ok bhv _ _ _ hp h1, andThen_success]
      try dsimp only []
      rw [WriteRegister_fail bhv _ _ _ hp h2]
      refine ⟨?_, ?_, ?_⟩ <;> simp [andThen, timingTxs]
    · have h0 : bhv.ok txc = true := by simpa using hoks 0 (by omega)
      have h1 : bhv.ok (txc + 1) = true := hoks 1 (by omega)
      have h2 : bhv.ok (txc + 1 + 1) = true := by
        have h := hoks 2 (by omega)
        simpa [Nat.add_assoc] using h
      have h3 : bhv.ok (txc + 1 + 1 + 1) = false := by
        have h := hbad
        simpa [Nat.add_assoc] using h
      rw [WriteRegister_ok bhv _ _ _ hp h0, andThen_success]
      try dsimp only []
      rw [WriteRegister_ok bhv _ _ _ hp h1, andThen_success]
      try dsimp only []
      rw [WriteRegister_ok bhv _ _ _ hp h2, andThen_success]
      try dsimp only []
      rw [WriteRegister_fail bhv _ _ _ hp h3]
      refine ⟨?_, ?_, ?_⟩ <;> simp [andThen, timingTxs]
  · intro channel_id frequency_hz k hi hch hf1 hf2 hp hk hoks hbad
    have hfreq : ¬(frequency_hz < MIN_FREQUENCY ∨ MAX_FREQUENCY < frequency_hz) := by
      simp only [MIN_FREQUENCY, MAX_FREQUENCY, not_or, not_lt]
      omega
    obtain ⟨drv, txc, tr⟩ := w
    simp only [] at hi hp hoks hbad ⊢
    simp only [SetFrequency]
    rw [if_neg (by simp [hi]), if_neg (by simp [isValidChannel_true hch]), if_neg hfreq]
    interval_cases k
    · have h0 : bhv.ok txc = false := by simpa using hbad
      rw [ReadRegister_fail bhv _ 0 hp h0]
      exact ⟨rfl, by simp⟩
    · have h0 : bhv.ok txc = true := by simpa using hoks 0 (by omega)
      have h1 : bhv.ok (txc + 1) = false := hbad
      rw [ReadRegister_ok bhv _ 0 hp h0]
      try dsimp only []
      rw [WriteRegister_fail bhv _ _ _ hp h1]
      constructor <;> simp [andThen]
    · have h0 : bhv.ok txc = true := by simpa using hoks 0 (by omega)
      have h1 : bhv.ok (txc + 1) = true := hoks 1 (by omega)
      have h2 : bhv.ok (txc + 1 + 1) = false := by
        have h := hbad
        simpa [Nat.add_assoc] using h
      rw [ReadRegister_ok bhv _ 0 hp h0]
      try dsimp only []
      rw [WriteRegister_ok bhv _ _ _ hp h1, andThen_success]
      try dsimp only []
      rw [WriteRegister_fail bhv _ _ _ hp h2]
      constructor <;> simp [andThen]
    · have h0 : bhv.ok txc = true := by simpa using hoks 0 (by omega)
      have h1 : bhv.ok (txc + 1) = true := hoks 1 (by omega)
      have h2 : bhv.ok (txc + 1 + 1) = true := by
        have h := hoks 2 (by omega)
        simpa [Nat.add_assoc] using h
      have h3 : bhv.ok (txc + 1 + 1 + 1) = false := by
        have h := hbad
        simpa [Nat.add_assoc] using h
      rw [ReadRegister_ok bhv _ 0 hp h0]
      try dsimp only []
      rw [WriteRegister_ok bhv _ _ _ hp h1, andThen_success]
      try dsimp only []
      rw [WriteRegister_ok bhv _ _ _ hp h2, andThen_success]
      try dsimp only []
      rw [WriteRegister_fail bhv _ _ _ hp h3]
      constructor <;> simp [andThen]
  · intro channel_id duty_cycle e w1 hi hch h0 h1 hS hne
    have hd : ¬(duty_cycle < 0 ∨ 1 < duty_cycle) := by
      push_neg
      exact ⟨h0, h1⟩
    simp only [SetDutyCycle]
    rw [if_neg (by simp [hi]), if_neg (by simp [isValidChannel_true hch]), if_neg hd]
    try dsimp only []
    rw [hS]
    cases e
    case PWM_SUCCESS => exact absurd rfl hne
    all_goals rfl
  · intro channel_id config e w1 hi hch hf1 hf2 hd0 hd1 hS hne
    have hfreq : ¬(config.frequency_hz < MIN_FREQUENCY ∨
        MAX_FREQUENCY < config.frequency_hz) := by
      simp only [MIN_FREQUENCY, MAX_FREQUENCY, not_or, not_lt]
      omega
    have hd : ¬(config.initial_duty_cycle < 0 ∨ 1 < config.initial_duty_cycle) := by
      push_neg
      exact ⟨hd0, hd1⟩
    simp only [ConfigureChannel]
    rw [if_neg (by simp [hi]), if_neg (by simp [isValidChannel_true hch]), if_neg hfreq,
      if_neg hd, hS]
    unfold andThen
    rw [if_neg (by simpa using hne)]
  · intro hi hp
    refine ⟨?_, ?_, ?_⟩
    · intro hb
      simp only [Initialize]
      rw [if_neg (by simp [hi]), if_neg (by simp [hp])]
      dsimp only [issueTx]
      simp [hb]
    · intro hb0 hb1
      simp only [Initialize, Reset]
      rw [if_neg (by simp [hi]), if_neg (by simp [hp])]
      dsimp only [issueTx]
      simp [hb0, hb1, hp, andThen]
    · intro hb0 hb1
      simp only [Initialize, Reset, SetFrequency]
      rw [if_neg (by simp [hi]), if_neg (by simp [hp])]
      dsimp only [issueTx]
      simp [hb0, hb1, hp, hi, andThen]
  · intro c cs e w1 hS hne
    show startList bhv w (c :: cs) = (e, w1)
    unfold startList
    rw [hS]
    cases e
    case PWM_SUCCESS => exact absurd rfl hne
    all_goals rfl
  · intro c cs e w1 hS hne
    show stopList bhv w (c :: cs) = (e, w1)
    unfold stopList
    rw [hS]
    cases e
    case PWM_SUCCESS => exact absurd rfl hne
    all_goals rfl
  · intro c cs d ds e w1 hS hne
    show setDutyList bhv w ((c :: cs).zip (d :: ds)) = (e, w1)
    rw [List.zip_cons_cons]
    unfold setDutyList
    rw [hS]
    cases e
    case PWM_SUCCESS => exact absurd rfl hne
    all_goals rfl

/-- C5 witness: the amended theorem evaluated on concrete states: a
successful Deinitialize from the initialized state with an arbitrary
transport, the distinct error when already uninitialized, the timing and
frequency writers aborting right after a third-transaction failure, and a
batch call returning its first channel's error untouched. -/
theorem c5_witness :
    ( Deinitialize bhvOk initWorld).1 = HfPwmErr.PWM_SUCCESS ∧
    ( Deinitialize bhvOk freshWorld).1 = HfPwmErr.PWM_NOT_INITIALIZED ∧
    (SetChannelTiming bhvThirdFails initWorld 0 7 4095).1 =
      HfPwmErr.PWM_HARDWARE_ERROR ∧
    (SetChannelTiming bhvThirdFails initWorld 0 7 4095).2.txCount =
      initWorld.txCount + 3 ∧
    (SetFrequency bhvThirdFails initWorld 0 1000).1 = HfPwmErr.PWM_HARDWARE_ERROR ∧
    StartMultiple bhvOk initWorld (some [99, 0]) =
      (HfPwmErr.PWM_INVALID_CHANNEL, initWorld) :=
  ⟨((c5_deinit_ignores_errors bhvOk initWorld).1 rfl).1,
   (c5_deinit_ignores_errors bhvOk freshWorld).2.1 rfl,
   ((c5_deinit_ignores_errors bhvThirdFails initWorld).2.2.1 0 7 4095 2 (by norm_num)
      rfl (by norm_num) (fun j hj => by interval_cases j <;> rfl) rfl).1,
   ((c5_deinit_ignores_errors bhvThirdFails initWorld).2.2.1 0 7 4095 2 (by norm_num)
      rfl (by norm_num) (fun j hj => by interval_cases j <;> rfl) rfl).2.2,
   ((c5_deinit_ignores_errors bhvThirdFails initWorld).2.2.2.1 0 1000 2 rfl
      (by norm_num) (by norm_num) (by norm_num) rfl (by norm_num)
      (fun j hj => by interval_cases j <;> rfl) rfl).1,
   (c5_deinit_ignores_errors bhvOk initWorld).2.2.2.2.2.2.2.1 99 [0]
      HfPwmErr.PWM_INVALID_CHANNEL initWorld rfl (by decide)⟩

/-- C9: cached on and off counts stay within [0, 4095] across every
sequence of public operations (from any state already satisfying the
bound, in particular the freshly constructed state), and the timing
mapper itself never produces a value above 4095. -/
theorem c9_timing_range_invariant :
    (∀ (bhv : Bhv) (w : World) (ops : List Op), ChanInv w → ChanInv (runOps bhv w ops)) ∧
    (∀ duty_cycle : ℚ, (DutyCycleToTiming duty_cycle).1 ≤ 4095 ∧
      (DutyCycleToTiming duty_cycle).2 ≤ 4095) ∧
    ChanInv freshWorld := by
  refine ⟨fun bhv w ops h => runOps_chanInv bhv ops w h, dutyCycleToTiming_le, ?_⟩
  intro i
  exact ⟨Nat.zero_le _, Nat.zero_le _⟩

/-- C9 witness: the invariant evaluated on a concrete run from the fresh
state. -/
theorem c9_witness :
    ChanInv (runOps bhvOk freshWorld
      [Op.opInit, Op.opSetDuty 0 1, Op.opStart 0, Op.opStop 0, Op.opDeinit]) :=
  c9_timing_range_invariant.1 bhvOk freshWorld _ c9_timing_range_invariant.2.2

/-- C10: IsChannelActive reports no error: it returns false whenever the
driver is uninitialized or the channel index is 16 or more, otherwise the
stored active flag, and it leaves the world (so also the transaction
trace) untouched, issuing no hardware access. -/
theorem c10_is_channel_active (bhv : Bhv) (w : World) (channel_id : Nat) :
    ((IsChannelActive bhv w channel_id).2 = w) ∧
    (w.drv.is_initialized = false ∨ 16 ≤ channel_id →
      (IsChannelActive bhv w channel_id).1 = false) ∧
    (w.drv.is_initialized = true → channel_id < 16 →
      (IsChannelActive bhv w channel_id).1 = (w.drv.channels channel_id).is_active) := by
  refine ⟨?_, ?_, ?_⟩
  · unfold IsChannelActive
    split <;> rfl
  · intro h
    unfold IsChannelActive
    rcases h with h | h
    · rw [if_pos (Or.inl h)]
    · rw [if_pos (Or.inr (by
        simp only [IsValidChannel, MAX_CHANNELS, decide_eq_false_iff_not]
        omega))]
  · intro hi hch
    unfold IsChannelActive
    rw [if_neg]
    push_neg
    exact ⟨by simp [hi], by simp [isValidChannel_true hch]⟩

/-- C10 witness: evaluated on the initialized state at channel 0 and on an
uninitialized state at channel 16. -/
theorem c10_witness :
    (IsChannelActive bhvOk initWorld 0).2 = initWorld ∧
    (IsChannelActive bhvOk initWorld 0).1 = (initWorld.drv.channels 0).is_active ∧
    (IsChannelActive bhvOk freshWorld 16).1 = false :=
  ⟨(c10_is_channel_active bhvOk initWorld 0).1,
   (c10_is_channel_active bhvOk initWorld 0).2.2 rfl (by norm_num),
   (c10_is_channel_active bhvOk freshWorld 16).2.1 (Or.inr (by norm_num))⟩

/-- C6: the batch operations reject a null array or an empty batch with
PWM_INVALID_ARGUMENT, and otherwise apply the single-channel operation to
each listed channel in order, stopping at the first failure and returning
it; on the concrete batch [0, 1, 99] against an initialized driver,
channels 0 and 1 end up started and the call returns PWM_INVALID_CHANNEL. -/
theorem c6_batch_first_failure (bhv : Bhv) (w : World) :
    (StartMultiple bhv w none = (HfPwmErr.PWM_INVALID_ARGUMENT, w)) ∧
    (StartMultiple bhv w (some []) = (HfPwmErr.PWM_INVALID_ARGUMENT, w)) ∧
    (∀ c cs, StartMultiple bhv w (some (c :: cs)) =
      match Start bhv w c with
      | (.PWM_SUCCESS, w1) =>
          if cs = [] then (.PWM_SUCCESS, w1) else StartMultiple bhv w1 (some cs)
      | (e, w1) => (e, w1)) ∧
    (StopMultiple bhv w none = (HfPwmErr.PWM_INVALID_ARGUMENT, w)) ∧
    (StopMultiple bhv w (some []) = (HfPwmErr.PWM_INVALID_ARGUMENT, w)) ∧
    (∀ c cs, StopMultiple bhv w (some (c :: cs)) =
      match Stop bhv w c with
      | (.PWM_SUCCESS, w1) =>
          if cs = [] then (.PWM_SUCCESS, w1) else StopMultiple bhv w1 (some cs)
      | (e, w1) => (e, w1)) ∧
    (∀ duty_cycles, SetDutyCycleMultiple bhv w none duty_cycles =
      (HfPwmErr.PWM_INVALID_ARGUMENT, w)) ∧
    (∀ ids, SetDutyCycleMultiple bhv w (some ids) none =
      (HfPwmErr.PWM_INVALID_ARGUMENT, w)) ∧
    (∀ ds, SetDutyCycleMultiple bhv w (some []) (some ds) =
      (HfPwmErr.PWM_INVALID_ARGUMENT, w)) ∧
    (∀ c cs d ds, SetDutyCycleMultiple bhv w (some (c :: cs)) (some (d :: ds)) =
      match SetDutyCycle bhv w c d with
      | (.PWM_SUCCESS, w1) =>
          if cs = [] then (.PWM_SUCCESS, w1)
          else SetDutyCycleMultiple bhv w1 (some cs) (some ds)
      | (e, w1) => (e, w1)) ∧
    ((StartMultiple bhvOk initWorld (some [0, 1, 99])).1 =
      HfPwmErr.PWM_INVALID_CHANNEL ∧
     ((StartMultiple bhvOk initWorld (some [0, 1, 99])).2.drv.channels 0).is_active =
      true ∧
     ((StartMultiple bhvOk initWorld (some [0, 1, 99])).2.drv.channels 1).is_active =
      true) := by
  refine ⟨rfl, rfl, ?_, rfl, rfl, ?_, fun _ => rfl, ?_, fun _ => rfl, ?_, ?_, ?_, ?_⟩
  · intro c cs
    show startList bhv w (c :: cs) = _
    unfold startList
    rcases hS : Start bhv w c with ⟨e, w1⟩
    cases e <;> try rfl
    case PWM_SUCCESS =>
      cases cs with
      | nil => rfl
      | cons c2 cs2 => rfl
  · intro c cs
    show stopList bhv w (c :: cs) = _
    unfold stopList
    rcases hS : Stop bhv w c with ⟨e, w1⟩
    cases e <;> try rfl
    case PWM_SUCCESS =>
      cases cs with
      | nil => rfl
      | cons c2 cs2 => rfl
  · intro ids
    cases ids <;> rfl
  · intro c cs d ds
    show setDutyList bhv w ((c :: cs).zip (d :: ds)) = _
    rw [List.zip_cons_cons]
    unfold setDutyList
    rcases hS : SetDutyCycle bhv w c d with ⟨e, w1⟩
    cases e <;> try rfl
    case PWM_SUCCESS =>
      cases cs with
      | nil => rfl
      | cons c2 cs2 =>
        cases ds with
        | nil => rfl
        | cons d2 ds2 => rfl
  · decide
  · decide
  · decide

/-- C7: on an initialized driver with a fully succeeding transport,
SetDutyCycle then Stop then Start round-trips the stored duty cycle (as
GetDutyCycle observes) and the cached timing pair; Stop writes the
permanently-off pair (0, 4095) to the hardware without touching the cached
duty cycle, and Start re-issues exactly the timing pair the SetDutyCycle
call cached. -/
theorem c7_duty_roundtrip (bhv : Bhv) (w : World) (channel_id : Nat) (duty_cycle : ℚ)
    (hok : ∀ n, bhv.ok n = true) (hp : w.drv.i2c_present = true)
    (hi : w.drv.is_initialized = true) (hch : channel_id < 16)
    (h0 : 0 ≤ duty_cycle) (h1 : duty_cycle ≤ 1) :
    ∀ e1 w1 e2 w2 e3 w3,
      SetDutyCycle bhv w channel_id duty_cycle = (e1, w1) →
      Stop bhv w1 channel_id = (e2, w2) →
      Start bhv w2 channel_id = (e3, w3) →
      e1 = HfPwmErr.PWM_SUCCESS ∧ e2 = HfPwmErr.PWM_SUCCESS ∧
      e3 = HfPwmErr.PWM_SUCCESS ∧
      GetDutyCycle w3 channel_id = (HfPwmErr.PWM_SUCCESS, some duty_cycle) ∧
      (w3.drv.channels channel_id).on_time = (DutyCycleToTiming duty_cycle).1 ∧
      (w3.drv.channels channel_id).off_time = (DutyCycleToTiming duty_cycle).2 ∧
      (w3.drv.channels channel_id).is_active = true ∧
      (w2.drv.channels channel_id).duty_cycle = duty_cycle ∧
      (w1.drv.channels channel_id).on_time = (DutyCycleToTiming duty_cycle).1 ∧
      (w1.drv.channels channel_id).off_time = (DutyCycleToTiming duty_cycle).2 ∧
      w2.trace = w1.trace ++ timingTxs w.drv.i2c_address channel_id 0 4095 ∧
      w3.trace = w2.trace ++ timingTxs w.drv.i2c_address channel_id
        (w1.drv.channels channel_id).on_time (w1.drv.channels channel_id).off_time := by
  intro e1 w1 e2 w2 e3 w3 hS hT hU
  rw [SetDutyCycle_ok bhv w channel_id duty_cycle hi hch h0 h1 hp hok,
    Prod.mk.injEq] at hS
  obtain ⟨he1, hw1⟩ := hS
  have hi1 : w1.drv.is_initialized = true := by rw [← hw1]; exact hi
  have hp1 : w1.drv.i2c_present = true := by rw [← hw1]; exact hp
  rw [Stop_ok bhv w1 channel_id hi1 hch hp1 hok, Prod.mk.injEq] at hT
  obtain ⟨he2, hw2⟩ := hT
  have hi2 : w2.drv.is_initialized = true := by rw [← hw2]; exact hi1
  have hp2 : w2.drv.i2c_present = true := by rw [← hw2]; exact hp1
  rw [Start_ok bhv w2 channel_id hi2 hch hp2 hok, Prod.mk.injEq] at hU
  obtain ⟨he3, hw3⟩ := hU
  have hi3 : w3.drv.is_initialized = true := by rw [← hw3]; exact hi2
  subst he1
  subst he2
  subst he3
  refine ⟨rfl, rfl, rfl, ?_, ?_, ?_, ?_, ?_, ?_, ?_, ?_, ?_⟩
  · rw [GetDutyCycle_eq w3 channel_id hi3 hch, ← hw3, ← hw2, ← hw1] <;>
      simp [Function.update_same]
  · rw [← hw3, ← hw2, ← hw1] <;> simp [Function.update_same]
  · rw [← hw3, ← hw2, ← hw1] <;> simp [Function.update_same]
  · rw [← hw3, ← hw2, ← hw1] <;> simp [Function.update_same]
  · rw [← hw2, ← hw1] <;> simp [Function.update_same]
  · rw [← hw1] <;> simp [Function.update_same]
  · rw [← hw1] <;> simp [Function.update_same]
  · rw [← hw2, ← hw1] <;> simp [Function.update_same]
  · rw [← hw3, ← hw2, ← hw1] <;> simp [Function.update_same]

/-- C7 witness: the round trip evaluated at channel 0 and duty cycle 1 on
the initialized state with the always-succeeding transport. -/
theorem c7_witness :
    GetDutyCycle (Start bhvOk (Stop bhvOk
        (SetDutyCycle bhvOk initWorld 0 1).2 0).2 0).2 0 =
      (HfPwmErr.PWM_SUCCESS, some 1) :=
  (c7_duty_roundtrip bhvOk initWorld 0 1 (fun _ => rfl) rfl rfl (by norm_num)
    (by norm_num) (by norm_num)
    (SetDutyCycle bhvOk initWorld 0 1).1 (SetDutyCycle bhvOk initWorld 0 1).2
    (Stop bhvOk (SetDutyCycle bhvOk initWorld 0 1).2 0).1
    (Stop bhvOk (SetDutyCycle bhvOk initWorld 0 1).2 0).2
    (Start bhvOk (Stop bhvOk (SetDutyCycle bhvOk initWorld 0 1).2 0).2 0).1
    (Start bhvOk (Stop bhvOk (SetDutyCycle bhvOk initWorld 0 1).2 0).2 0).2
    rfl rfl rfl).2.2.2.1

/-- C4: for frequencies in [24, 1526] the prescale value is within
[3, 255], equals the specification formula (round then clamp), and is
monotonically non-increasing in the frequency. -/
theorem c4_prescale (f g : Nat) (hf1 : 24 ≤ f) (hf2 : f ≤ 1526)
    (hg1 : 24 ≤ g) (hg2 : g ≤ 1526) (hfg : f ≤ g) :
    3 ≤ CalculatePrescale f ∧ CalculatePrescale f ≤ 255 ∧
    CalculatePrescale f = ComputePrescaleSpec f ∧
    CalculatePrescale g ≤ CalculatePrescale f := by
  refine ⟨le_max_left _ _, max_le (by norm_num) (min_le_left _ _), ?_, ?_⟩
  · simp only [CalculatePrescale, ComputePrescaleSpec, INTERNAL_OSC_FREQ]
    rw [min_max_distrib_left]
    norm_num
  · simp only [CalculatePrescale, INTERNAL_OSC_FREQ]
    have hfq : (0 : ℚ) < 4096 * (f : ℚ) := by
      have : (24 : ℚ) ≤ (f : ℚ) := by exact_mod_cast hf1
      nlinarith
    have hfg2 : 4096 * (f : ℚ) ≤ 4096 * (g : ℚ) := by
      have : (f : ℚ) ≤ (g : ℚ) := by exact_mod_cast hfg
      nlinarith
    have hdiv : (25000000 : ℚ) / (4096 * (g : ℚ)) ≤ (25000000 : ℚ) / (4096 * (f : ℚ)) :=
      div_le_div_of_nonneg_left (by norm_num) hfq hfg2
    have hr : round ((25000000 : ℚ) / (4096 * (g : ℚ)) - 1) ≤
        round ((25000000 : ℚ) / (4096 * (f : ℚ)) - 1) := by
      rw [round_eq, round_eq]
      exact Int.floor_le_floor (by linarith)
    exact max_le_max (le_refl 3) (min_le_min (le_refl 255) (Int.toNat_le_toNat hr))

/-- C4 witness: evaluated at the range endpoints 24 and 1526 Hz, where the
prescale values are 253 and 3. -/
theorem c4_witness :
    3 ≤ CalculatePrescale 24 ∧ CalculatePrescale 24 ≤ 255 ∧
    CalculatePrescale 24 = ComputePrescaleSpec 24 ∧
    CalculatePrescale 1526 ≤ CalculatePrescale 24 :=
  c4_prescale 24 1526 (by norm_num) (by norm_num) (by norm_num) (by norm_num)
    (by norm_num)

/-- C8 counterexample: when the transport fails exactly the prescale write
(the third transaction of a lone SetFrequency call), the call has already
issued the PRE_SCALE write — it is the last transaction in the trace, so
no MODE1 write clearing the SLEEP bit follows it, contradicting the claim
that every PRE_SCALE write is followed by such a write.  The call aborts
with a hardware error, leaving the device asleep. -/
theorem c8_counterexample :
    (SetFrequency bhvThirdFails initWorld 0 1000).2.trace =
      [Tx.writeRead 64 [0], Tx.write 64 [0, 16], Tx.write 64 [254, 5]] ∧
    (SetFrequency bhvThirdFails initWorld 0 1000).1 = HfPwmErr.PWM_HARDWARE_ERROR := by
  have h5 : CalculatePrescale 1000 = 5 := by
    norm_num [CalculatePrescale, INTERNAL_OSC_FREQ, round_eq] <;> rfl
  constructor
  · have ht : (SetFrequency bhvThirdFails initWorld 0 1000).2.trace =
        [Tx.writeRead 64 [0], Tx.write 64 [0, 16],
         Tx.write 64 [254, CalculatePrescale 1000]] := rfl
    rw [ht, h5]
  · rfl

theorem setBit4_or_sixteen (m : Nat) : Nat.testBit (m ||| 16) 4 = true := by
  rw [Nat.testBit_lor]
  simp [show Nat.testBit 16 4 = true by decide]

theorem clearBit4_and_mask (m : Nat) : Nat.testBit (m &&& 239) 4 = false := by
  rw [Nat.testBit_land]
  simp [show Nat.testBit 239 4 = false by decide]

/-- The exact shape of the trace of one SetFrequency call observed in
isolation (empty starting trace, transaction counter zero), by cases on
which transport transaction fails first: the MODE1 read alone; then the
MODE1 sleeping write; then the prescale write; and finally the full
four-transaction sequence, whose last element is the MODE1 waking write
issued whether or not it succeeds. -/
theorem SetFrequency_trace_shape (bhv : Bhv) (w : World) (channel_id frequency_hz : Nat)
    (htr : w.trace = []) (htx : w.txCount = 0)
    (hi : w.drv.is_initialized = true) (hp : w.drv.i2c_present = true)
    (hch : channel_id < 16) (hf1 : 24 ≤ frequency_hz) (hf2 : frequency_hz ≤ 1526) :
    (bhv.ok 0 = false ∧
      (SetFrequency bhv w channel_id frequency_hz).2.trace =
        [Tx.writeRead w.drv.i2c_address [0]] ∧
      (SetFrequency bhv w channel_id frequency_hz).1 = HfPwmErr.PWM_HARDWARE_ERROR) ∨
    (bhv.ok 0 = true ∧ bhv.ok 1 = false ∧
      (SetFrequency bhv w channel_id frequency_hz).2.trace =
        [Tx.writeRead w.drv.i2c_address [0],
         Tx.write w.drv.i2c_address [0, bhv.readVal 0 % 256 ||| 16]] ∧
      (SetFrequency bhv w channel_id frequency_hz).1 = HfPwmErr.PWM_HARDWARE_ERROR) ∨
    (bhv.ok 0 = true ∧ bhv.ok 1 = true ∧ bhv.ok 2 = false ∧
      (SetFrequency bhv w channel_id frequency_hz).2.trace =
        [Tx.writeRead w.drv.i2c_address [0],
         Tx.write w.drv.i2c_address [0, bhv.readVal 0 % 256 ||| 16],
         Tx.write w.drv.i2c_address [254, CalculatePrescale frequency_hz]] ∧
      (SetFrequency bhv w channel_id frequency_hz).1 = HfPwmErr.PWM_HARDWARE_ERROR) ∨
    (bhv.ok 0 = true ∧ bhv.ok 1 = true ∧ bhv.ok 2 = true ∧
      (SetFrequency bhv w channel_id frequency_hz).2.trace =
        [Tx.writeRead w.drv.i2c_address [0],
         Tx.write w.drv.i2c_address [0, bhv.readVal 0 % 256 ||| 16],
         Tx.write w.drv.i2c_address [254, CalculatePrescale frequency_hz],
         Tx.write w.drv.i2c_address [0, (bhv.readVal 0 % 256 ||| 16) &&& 239]]) := by
  have hfreq : ¬(frequency_hz < MIN_FREQUENCY ∨ MAX_FREQUENCY < frequency_hz) := by
    simp only [MIN_FREQUENCY, MAX_FREQUENCY, not_or, not_lt]
    omega
  obtain ⟨drv, txc, tr⟩ := w
  subst htx
  subst htr
  simp only [] at hi hp ⊢
  unfold SetFrequency
  rw [if_neg (by simp [hi]), if_neg (by simp [isValidChannel_true hch]), if_neg hfreq]
  cases h0 : bhv.ok 0 with
  | false =>
    rw [ReadRegister_fail bhv _ 0 hp h0]
    exact Or.inl ⟨rfl, rfl, rfl⟩
  | true =>
    rw [ReadRegister_ok bhv _ 0 hp h0]
    dsimp only []
    cases h1 : bhv.ok 1 with
    | false =>
      rw [WriteRegister_fail bhv _ 0 _ hp h1]
      refine Or.inr (Or.inl ⟨rfl, rfl, ?_, ?_⟩) <;> simp [andThen]
    | true =>
      rw [WriteRegister_ok bhv _ 0 _ hp h1, andThen_success]
      dsimp only []
      cases h2 : bhv.ok 2 with
      | false =>
        rw [WriteRegister_fail bhv _ 254 _ hp h2]
        refine Or.inr (Or.inr (Or.inl ⟨rfl, rfl, rfl, ?_, ?_⟩)) <;> simp [andThen]
      | true =>
        rw [WriteRegister_ok bhv _ 254 _ hp h2, andThen_success]
        dsimp only []
        cases h3 : bhv.ok 3 with
        | false =>
          rw [WriteRegister_fail bhv _ 0 _ hp h3]
          refine Or.inr (Or.inr (Or.inr ⟨rfl, rfl, rfl, ?_⟩))
          simp [andThen]
        | true =>
          rw [WriteRegister_ok bhv _ 0 _ hp h3, andThen_success]
          exact Or.inr (Or.inr (Or.inr ⟨rfl, rfl, rfl, rfl⟩))

/-- C8 amended: in the write sequence issued by one SetFrequency call
(observed in isolation on a validated input), every PRE_SCALE (0xFE)
write is immediately preceded by a MODE1 write whose value has the SLEEP
bit set; when the PRE_SCALE transaction succeeds, it is immediately
followed by a MODE1 write whose value has the SLEEP bit cleared; when the
PRE_SCALE transaction fails, nothing follows it and the call aborts with
a hardware error (the device is left asleep). -/
theorem c8_prescale_sleep_bracket (bhv : Bhv) (w : World) (channel_id frequency_hz : Nat)
    (htr : w.trace = []) (htx : w.txCount = 0)
    (hi : w.drv.is_initialized = true) (hp : w.drv.i2c_present = true)
    (hch : channel_id < 16) (hf1 : 24 ≤ frequency_hz) (hf2 : frequency_hz ≤ 1526) :
    ∀ i v,
      ((SetFrequency bhv w channel_id frequency_hz).2.trace).get? i =
        some (Tx.write w.drv.i2c_address [254, v]) →
      (∃ m, ((SetFrequency bhv w channel_id frequency_hz).2.trace).get? (i - 1) =
          some (Tx.write w.drv.i2c_address [0, m]) ∧ Nat.testBit m 4 = true) ∧
      (bhv.ok 2 = true →
        ∃ m, ((SetFrequency bhv w channel_id frequency_hz).2.trace).get? (i + 1) =
          some (Tx.write w.drv.i2c_address [0, m]) ∧ Nat.testBit m 4 = false) ∧
      (bhv.ok 2 = false →
        ((SetFrequency bhv w channel_id frequency_hz).2.trace).get? (i + 1) = none ∧
        (SetFrequency bhv w channel_id frequency_hz).1 = HfPwmErr.PWM_HARDWARE_ERROR) := by
  rcases SetFrequency_trace_shape bhv w channel_id frequency_hz htr htx hi hp hch hf1 hf2
    with ⟨h0, htrace, hres⟩ | ⟨h0, h1, htrace, hres⟩ | ⟨h0, h1, h2, htrace, hres⟩ |
      ⟨h0, h1, h2, htrace⟩
  · intro i v hget
    rw [htrace] at hget
    exfalso
    rcases i with _ | i <;> simp [List.get?] at hget
  · intro i v hget
    rw [htrace] at hget
    exfalso
    rcases i with _ | _ | i <;> simp [List.get?] at hget
  · intro i v hget
    rw [htrace] at hget
    rcases i with _ | _ | _ | i
    · simp [List.get?] at hget
    · simp [List.get?] at hget
    · refine ⟨⟨bhv.readVal 0 % 256 ||| 16, ?_, setBit4_or_sixteen _⟩, ?_, ?_⟩
      · rw [htrace]
        rfl
      · intro hc
        rw [h2] at hc
        simp at hc
      · intro _
        refine ⟨?_, hres⟩
        rw [htrace]
        rfl
    · simp [List.get?] at hget
  · intro i v hget
    rw [htrace] at hget
    rcases i with _ | _ | _ | _ | i
    · simp [List.get?] at hget
    · simp [List.get?] at hget
    · refine ⟨⟨bhv.readVal 0 % 256 ||| 16, ?_, setBit4_or_sixteen _⟩, ?_, ?_⟩
      · rw [htrace]
        rfl
      · intro _
        exact ⟨(bhv.readVal 0 % 256 ||| 16) &&& 239,
          by rw [htrace]; rfl, clearBit4_and_mask _⟩
      · intro hc
        rw [h2] at hc
        simp at hc
    · simp [List.get?] at hget
    · simp [List.get?] at hget

/-- C8 witness: the bracket property evaluated on the always-succeeding
transport at channel 0 and 1000 Hz, where the PRE_SCALE write sits at
trace index 2 between the two MODE1 writes. -/
theorem c8_witness :
    (∃ m, ((SetFrequency bhvOk initWorld 0 1000).2.trace).get? (2 - 1) =
        some (Tx.write initWorld.drv.i2c_address [0, m]) ∧ Nat.testBit m 4 = true) ∧
    (bhvOk.ok 2 = true →
      ∃ m, ((SetFrequency bhvOk initWorld 0 1000).2.trace).get? (2 + 1) =
        some (Tx.write initWorld.drv.i2c_address [0, m]) ∧ Nat.testBit m 4 = false) ∧
    (bhvOk.ok 2 = false →
      ((SetFrequency bhvOk initWorld 0 1000).2.trace).get? (2 + 1) = none ∧
      (SetFrequency bhvOk initWorld 0 1000).1 = HfPwmErr.PWM_HARDWARE_ERROR) :=
  c8_prescale_sleep_bracket bhvOk initWorld 0 1000 rfl rfl rfl rfl (by norm_num)
    (by norm_num) (by norm_num) 2 (CalculatePrescale 1000) rfl

end Pca9685
